import Mathlib

/-!
# StretchingBuddyNG — verification of the serverless request handlers

Shallow embedding of the repository's Lambda handlers
(`src/infra/lambda/lambda_utils.py`, `progress_handler.py`,
`exercises_handler.py`, `polly_handler.py`) in Lean 4, together with
theorems settling the behavioural claims about them.

Modelling conventions:
* Python strings are Lean `String`s; `str.strip()` is `pyStrip`
  (which removes the ASCII whitespace actually occurring in the data),
  `str.lower()`/`str.upper()` are `pyLower`/`pyUpper`, which implement the
  Unicode simple case mapping on the ASCII and Latin-1 ranges — all the
  reserved ids, engine names, error codes and HTTP methods involved.
* Python `int(...)` on a decimal string is `pyInt` (optional sign,
  ASCII digits with single interior underscores, surrounding whitespace).
* External collaborators (DynamoDB, Polly, `base64`, `json.loads`) are
  modelled as explicit oracle values/functions supplied to the embedded
  handlers; the handlers' own control flow is translated statement by
  statement from the source.
* A raised `HttpError(status, message)` is `PyOutcome.http status message`;
  any other uncaught Python exception is `PyOutcome.uncaught`.
* `datetime.fromisoformat` / `isoformat` / `astimezone(utc)` are modelled
  concretely on a Gregorian datetime record (`PyDatetime`); the parser
  covers the dashed/colon-separated extended ISO-8601 profile handled by
  CPython (date, optional single separator character, `HH[:MM[:SS[.f{1,6}]]]`,
  optional `±HH[:MM]` offset) — sub-minute offsets, basic (undelimited)
  formats and fraction-digit overflow truncation are outside the model.
  Naive datetimes are interpreted in the runtime's local timezone, which
  is UTC for the Lambda environment at hand.
-/

/-- ASCII whitespace test used by the `str.strip()` model. -/
def pyIsSpace (c : Char) : Bool :=
  c = ' ' ∨ c = '\t' ∨ c = '\n' ∨ c = '\r' ∨ c = '\x0b' ∨ c = '\x0c'

/-- Model of Python `str.strip()`: drop whitespace from both ends. -/
def pyStrip (s : String) : String :=
  ⟨((s.data.dropWhile pyIsSpace).reverse.dropWhile pyIsSpace).reverse⟩

/-- Unicode simple lowercase mapping on the ASCII and Latin-1 ranges
(`A`–`Z`, `À`–`Þ` except `×`), as Python `str.lower()` applies it to the
strings these handlers compare. -/
def pyCharLower (c : Char) : Char :=
  if 65 ≤ c.toNat ∧ c.toNat ≤ 90 then Char.ofNat (c.toNat + 32)
  else if (192 ≤ c.toNat ∧ c.toNat ≤ 214) ∨ (216 ≤ c.toNat ∧ c.toNat ≤ 222) then
    Char.ofNat (c.toNat + 32)
  else c

/-- Model of Python `str.lower()` on the relevant character ranges. -/
def pyLower (s : String) : String :=
  ⟨s.data.map pyCharLower⟩

/-- Unicode simple uppercase mapping on the ASCII and Latin-1 ranges. -/
def pyCharUpper (c : Char) : Char :=
  if 97 ≤ c.toNat ∧ c.toNat ≤ 122 then Char.ofNat (c.toNat - 32)
  else if (224 ≤ c.toNat ∧ c.toNat ≤ 246) ∨ (248 ≤ c.toNat ∧ c.toNat ≤ 254) then
    Char.ofNat (c.toNat - 32)
  else c

/-- Model of Python `str.upper()` on the relevant character ranges. -/
def pyUpper (s : String) : String :=
  ⟨s.data.map pyCharUpper⟩

/-- Decimal digit character for `n % 10` (the `%0kd` formatting primitive). -/
def digitOf (n : Nat) : Char :=
  match n % 10 with
  | 0 => '0' | 1 => '1' | 2 => '2' | 3 => '3' | 4 => '4'
  | 5 => '5' | 6 => '6' | 7 => '7' | 8 => '8' | _ => '9'

/-- Zero-padded `k`-digit decimal rendering of `n` (Python `"%0kd" % n` for `n < 10^k`). -/
def padN : Nat → Nat → List Char
  | 0, _ => []
  | k + 1, n => padN k (n / 10) ++ [digitOf n]

/-- Read one ASCII decimal digit. -/
def readDigitChar (c : Char) : Option Nat :=
  if 48 ≤ c.toNat ∧ c.toNat ≤ 57 then some (c.toNat - 48) else none

/-- Read exactly `k` decimal digits, most significant first, onto `acc`. -/
def readNatGo : Nat → Nat → List Char → Option (Nat × List Char)
  | 0, acc, cs => some (acc, cs)
  | _ + 1, _, [] => none
  | k + 1, acc, c :: cs =>
    match readDigitChar c with
    | some dg => readNatGo k (acc * 10 + dg) cs
    | none => none

/-- Read exactly `k` decimal digits as a number. -/
def readFixedNat (k : Nat) (cs : List Char) : Option (Nat × List Char) :=
  readNatGo k 0 cs

/-- Greedily read up to `fuel` decimal digits; returns value, digit count, rest. -/
def readFracGo : Nat → Nat → Nat → List Char → Nat × Nat × List Char
  | 0, acc, cnt, cs => (acc, cnt, cs)
  | fuel + 1, acc, cnt, cs =>
    match cs with
    | [] => (acc, cnt, cs)
    | c :: cs' =>
      match readDigitChar c with
      | some dg => readFracGo fuel (acc * 10 + dg) (cnt + 1) cs'
      | none => (acc, cnt, c :: cs')

/-- Boolean prefix test on character lists. -/
def isPfxL : List Char → List Char → Bool
  | [], _ => true
  | _ :: _, [] => false
  | a :: as, b :: bs => a = b && isPfxL as bs

/-- Replace every (leftmost, non-overlapping) occurrence of the non-empty
needle `n₀ :: ntail` by `repl` — the core of Python `str.replace`.  The
`fuel` argument only bounds the recursion (it is supplied as the input's
length, which the scan never exceeds). -/
def replaceGo (n₀ : Char) (ntail repl : List Char) : Nat → List Char → List Char
  | _, [] => []
  | 0, c :: cs => c :: cs
  | fuel + 1, c :: cs =>
    if c = n₀ ∧ isPfxL ntail cs then
      repl ++ replaceGo n₀ ntail repl fuel (cs.drop ntail.length)
    else
      c :: replaceGo n₀ ntail repl fuel cs

/-- Model of Python `str.replace(needle, repl)` (empty needle: unused here, identity). -/
def pyReplace (s needle repl : String) : String :=
  match needle.data with
  | [] => s
  | n₀ :: ntail => ⟨replaceGo n₀ ntail repl.data s.data.length s.data⟩

/-- Substring test (Python `needle in haystack`). -/
def containsSub (haystack needle : List Char) : Bool :=
  match haystack with
  | [] => needle.isEmpty
  | c :: cs =>
    match needle with
    | [] => true
    | n₀ :: ntail => (c = n₀ && isPfxL ntail cs) || containsSub cs (n₀ :: ntail)

/-- Python `needle in haystack` on strings. -/
def strContains (haystack needle : String) : Bool :=
  containsSub haystack.data needle.data

/-- Parse interior digits of a Python integer literal (single underscores
allowed between digits), continuing from accumulator `acc`. -/
def pyIntDigitsGo : Nat → List Char → Option Nat
  | acc, [] => some acc
  | acc, '_' :: c :: cs =>
    match readDigitChar c with
    | some dg => pyIntDigitsGo (acc * 10 + dg) cs
    | none => none
  | _, ['_'] => none
  | acc, c :: cs =>
    match readDigitChar c with
    | some dg => pyIntDigitsGo (acc * 10 + dg) cs
    | none => none

/-- Parse a non-empty run of digits (with interior underscores). -/
def pyIntDigits : List Char → Option Nat
  | [] => none
  | c :: cs =>
    match readDigitChar c with
    | some dg => pyIntDigitsGo dg cs
    | none => none

/-- Model of Python `int(s)` for decimal strings: surrounding whitespace,
optional sign, ASCII digits with single interior underscores. -/
def pyInt (s : String) : Option Int :=
  match (pyStrip s).data with
  | '+' :: cs => (pyIntDigits cs).map (fun n => (n : Int))
  | '-' :: cs => (pyIntDigits cs).map (fun n => -(n : Int))
  | cs => (pyIntDigits cs).map (fun n => (n : Int))

/-- Code-point lexicographic strict comparison of character lists (how
Python compares strings). -/
def listLtb : List Char → List Char → Bool
  | [], [] => false
  | [], _ :: _ => true
  | _ :: _, [] => false
  | a :: as, b :: bs =>
    if a.toNat < b.toNat then true
    else if b.toNat < a.toNat then false
    else listLtb as bs

/-- Model of Python `a <= b` on strings: not `b < a` in the code-point
lexicographic order (for this total order that is exactly `a < b or a = b`). -/
def pyStrLe (a b : String) : Bool :=
  ! listLtb b.data a.data

/-- Stable insertion of `a` into a sorted list: `a` goes before the first
element `b` with `le a b` (so, for a total preorder, before every element
comparing equal — preserving original order as Python's stable sort does). -/
def pyInsertSorted {α : Type} (le : α → α → Bool) (a : α) : List α → List α
  | [] => [a]
  | b :: bs => if le a b then a :: b :: bs else b :: pyInsertSorted le a bs

/-- Model of Python's stable `list.sort` with comparator `le` (equal
elements keep their original relative order). -/
def pySort {α : Type} (le : α → α → Bool) : List α → List α
  | [] => []
  | a :: as => pyInsertSorted le a (pySort le as)

/-- Outcome of running a piece of Python code that may raise. -/
inductive PyOutcome (α : Type) where
  | ok (a : α)
  | http (status : Nat) (message : String)
  | uncaught
  deriving DecidableEq, Repr

/-- Structured JSON value (the modelled domain of `json.loads` / `json.dumps`). -/
inductive JVal where
  | str (s : String)
  | num (n : Int)
  | bool (b : Bool)
  | null
  | arr (xs : List JVal)
  | obj (fields : List (String × JVal))

/-- HTTP-shaped response; the JSON body is kept structured (serialization by
`json.dumps` is injective on this domain and not modelled character-wise).
CORS headers are attached uniformly by the source and carry no claim content. -/
structure HttpResponse where
  statusCode : Nat
  body : JVal

/-- `lambda_utils.json_response`. -/
def json_response (statusCode : Nat) (body : List (String × JVal)) : HttpResponse :=
  { statusCode := statusCode, body := JVal.obj body }

/-- `lambda_utils.with_error_handling`: `HttpError` becomes its own status with
`{"error": message}`; any other exception becomes a generic 500. -/
def with_error_handling (run : PyOutcome HttpResponse) : HttpResponse :=
  match run with
  | .ok r => r
  | .http status message => json_response status [("error", JVal.str message)]
  | .uncaught => json_response 500 [("error", JVal.str "Interner Serverfehler")]

section Datetime

/-- Python `datetime` value: Gregorian fields plus an optional fixed UTC
offset in minutes (`None` = naive). -/
structure PyDatetime where
  year : Nat
  month : Nat
  day : Nat
  hour : Nat
  minute : Nat
  second : Nat
  microsecond : Nat
  offsetMinutes : Option Int
  deriving DecidableEq, Repr

/-- Gregorian leap-year rule. -/
def isLeapYear (y : Nat) : Bool :=
  (y % 4 = 0 && y % 100 ≠ 0) || y % 400 = 0

/-- Length of month `m` in year `y`. -/
def daysInMonth (y m : Nat) : Nat :=
  if m = 2 then (if isLeapYear y then 29 else 28)
  else if m = 4 ∨ m = 6 ∨ m = 9 ∨ m = 11 then 30
  else 31

/-- Field ranges enforced by the `datetime` constructor (year 1–9999). -/
def isValidDatetime (d : PyDatetime) : Bool :=
  1 ≤ d.year ∧ d.year ≤ 9999 ∧ 1 ≤ d.month ∧ d.month ≤ 12 ∧
  1 ≤ d.day ∧ d.day ≤ daysInMonth d.year d.month ∧
  d.hour ≤ 23 ∧ d.minute ≤ 59 ∧ d.second ≤ 59 ∧ d.microsecond ≤ 999999

/-- Advance a datetime by one minute with calendar rollover;
`none` models `OverflowError` past year 9999. -/
def incMinute (d : PyDatetime) : Option PyDatetime :=
  if d.minute + 1 ≤ 59 then some { d with minute := d.minute + 1 }
  else if d.hour + 1 ≤ 23 then some { d with minute := 0, hour := d.hour + 1 }
  else if d.day + 1 ≤ daysInMonth d.year d.month then
    some { d with minute := 0, hour := 0, day := d.day + 1 }
  else if d.month + 1 ≤ 12 then
    some { d with minute := 0, hour := 0, day := 1, month := d.month + 1 }
  else if d.year + 1 ≤ 9999 then
    some { d with minute := 0, hour := 0, day := 1, month := 1, year := d.year + 1 }
  else none

/-- Move a datetime back by one minute with calendar rollover;
`none` models `OverflowError` before year 1. -/
def decMinute (d : PyDatetime) : Option PyDatetime :=
  if 1 ≤ d.minute then some { d with minute := d.minute - 1 }
  else if 1 ≤ d.hour then some { d with minute := 59, hour := d.hour - 1 }
  else if 2 ≤ d.day then some { d with minute := 59, hour := 23, day := d.day - 1 }
  else if 2 ≤ d.month then
    some { d with minute := 59, hour := 23,
                  day := daysInMonth d.year (d.month - 1), month := d.month - 1 }
  else if 2 ≤ d.year then
    some { d with minute := 59, hour := 23, day := 31, month := 12, year := d.year - 1 }
  else none

/-- Iterate a partial step `n` times. -/
def iterStep (step : PyDatetime → Option PyDatetime) : Nat → PyDatetime → Option PyDatetime
  | 0, d => some d
  | n + 1, d => (step d).bind (iterStep step n)

/-- Add `n` minutes (timedelta arithmetic) to a datetime. -/
def addMinutes (d : PyDatetime) (n : Int) : Option PyDatetime :=
  if 0 ≤ n then iterStep incMinute n.toNat d
  else iterStep decMinute (-n).toNat d

/-- Model of `datetime.astimezone(datetime.timezone.utc)`: a naive value is
interpreted in the runtime's local timezone (UTC on this Lambda runtime);
an aware value is shifted by the negated offset.  `none` = `OverflowError`. -/
def astimezoneUtc (d : PyDatetime) : Option PyDatetime :=
  match d.offsetMinutes with
  | none => some { d with offsetMinutes := some 0 }
  | some off => (addMinutes d (-off)).map (fun e => { e with offsetMinutes := some 0 })

/-- Build the parsed datetime, enforcing constructor ranges and the strict
24-hour bound on timezone offsets. -/
def finishDt (y mo dd h mi s us : Nat) (off : Option Int) : Option PyDatetime :=
  let d : PyDatetime :=
    { year := y, month := mo, day := dd, hour := h, minute := mi,
      second := s, microsecond := us, offsetMinutes := off }
  if isValidDatetime d ∧ (∀ o ∈ off, o.natAbs < 1440) then some d else none

/-- Parse the `±HH[:MM]`/`±HHMM` offset magnitude and finish. -/
def parseOffsetMag (y mo dd h mi s us : Nat) (neg : Bool) (cs : List Char) :
    Option PyDatetime :=
  match readFixedNat 2 cs with
  | none => none
  | some (oh, rest) =>
    match rest with
    | [] =>
      finishDt y mo dd h mi s us (some (if neg then -(oh * 60 : Int) else (oh * 60 : Int)))
    | ':' :: r2 =>
      match readFixedNat 2 r2 with
      | some (om, []) =>
        finishDt y mo dd h mi s us
          (some (if neg then -((oh * 60 + om : Nat) : Int) else ((oh * 60 + om : Nat) : Int)))
      | _ => none
    | _ =>
      match readFixedNat 2 rest with
      | some (om, []) =>
        finishDt y mo dd h mi s us
          (some (if neg then -((oh * 60 + om : Nat) : Int) else ((oh * 60 + om : Nat) : Int)))
      | _ => none

/-- Parse the optional timezone offset at the end of the timestamp. -/
def parseOffset (y mo dd h mi s us : Nat) (cs : List Char) : Option PyDatetime :=
  match cs with
  | [] => finishDt y mo dd h mi s us none
  | '+' :: cs' => parseOffsetMag y mo dd h mi s us false cs'
  | '-' :: cs' => parseOffsetMag y mo dd h mi s us true cs'
  | _ => none

/-- Parse the optional fractional-second part (1–6 digits after `.` or `,`). -/
def parseFrac (y mo dd h mi s : Nat) (cs : List Char) : Option PyDatetime :=
  match cs with
  | '.' :: cs' =>
    if (readFracGo 6 0 0 cs').2.1 = 0 then none
    else
      parseOffset y mo dd h mi s
        ((readFracGo 6 0 0 cs').1 * 10 ^ (6 - (readFracGo 6 0 0 cs').2.1))
        (readFracGo 6 0 0 cs').2.2
  | ',' :: cs' =>
    if (readFracGo 6 0 0 cs').2.1 = 0 then none
    else
      parseOffset y mo dd h mi s
        ((readFracGo 6 0 0 cs').1 * 10 ^ (6 - (readFracGo 6 0 0 cs').2.1))
        (readFracGo 6 0 0 cs').2.2
  | _ => parseOffset y mo dd h mi s 0 cs

/-- Parse `[:SS[.ffffff]]` then the offset. -/
def parseSecond (y mo dd h mi : Nat) (cs : List Char) : Option PyDatetime :=
  match cs with
  | ':' :: cs' =>
    match readFixedNat 2 cs' with
    | none => none
    | some (s, rest) => parseFrac y mo dd h mi s rest
  | _ => parseOffset y mo dd h mi 0 0 cs

/-- Parse `[:MM[:SS...]]` then the offset. -/
def parseMinute (y mo dd h : Nat) (cs : List Char) : Option PyDatetime :=
  match cs with
  | ':' :: cs' =>
    match readFixedNat 2 cs' with
    | none => none
    | some (mi, rest) => parseSecond y mo dd h mi rest
  | _ => parseOffset y mo dd h 0 0 0 cs

/-- Parse the time-of-day part `HH[:MM[:SS[.ffffff]]][offset]`. -/
def parseTime (y mo dd : Nat) (cs : List Char) : Option PyDatetime :=
  match readFixedNat 2 cs with
  | none => none
  | some (h, rest) => parseMinute y mo dd h rest

/-- Parse `-DD` and either end (midnight, naive) or one separator character
(any) followed by the time part. -/
def parseDay (y mo : Nat) (cs : List Char) : Option PyDatetime :=
  match cs with
  | '-' :: cs₄ =>
    match readFixedNat 2 cs₄ with
    | none => none
    | some (dd, cs₅) =>
      match cs₅ with
      | [] => finishDt y mo dd 0 0 0 0 none
      | _ :: timeCs => parseTime y mo dd timeCs
  | _ => none

/-- Parse `-MM` then the day part. -/
def parseMonth (y : Nat) (cs : List Char) : Option PyDatetime :=
  match cs with
  | '-' :: cs₂ =>
    match readFixedNat 2 cs₂ with
    | none => none
    | some (mo, cs₃) => parseDay y mo cs₃
  | _ => none

/-- Model of `datetime.fromisoformat` on the dashed extended profile:
`YYYY-MM-DD`, optionally one separator character (any) and a time part. -/
def pyFromIsoformat (s : String) : Option PyDatetime :=
  match readFixedNat 4 s.data with
  | none => none
  | some (y, cs₁) => parseMonth y cs₁

/-- The date-and-time body of `datetime.isoformat` (everything before the
offset suffix): `YYYY-MM-DDTHH:MM:SS[.ffffff]`. -/
def dtBody (d : PyDatetime) : List Char :=
  padN 4 d.year ++ '-' :: padN 2 d.month ++ '-' :: padN 2 d.day ++
  'T' :: padN 2 d.hour ++ ':' :: padN 2 d.minute ++ ':' :: padN 2 d.second ++
  (if d.microsecond = 0 then [] else '.' :: padN 6 d.microsecond)

/-- The `±HH:MM` offset suffix of `datetime.isoformat` (empty for naive values). -/
def isoOffsetSuffix (off : Option Int) : List Char :=
  match off with
  | none => []
  | some o =>
    (if o < 0 then '-' else '+') :: padN 2 (o.natAbs / 60) ++ ':' :: padN 2 (o.natAbs % 60)

/-- Model of `datetime.isoformat()` (seconds always printed; microseconds
printed as 6 digits when non-zero — the only shapes the handlers produce). -/
def pyIsoformat (d : PyDatetime) : String :=
  ⟨dtBody d ++ isoOffsetSuffix d.offsetMinutes⟩

end Datetime

/-- A JSON-payload value as the Python handlers see it after `json.loads`:
string, int, bool, `None`, or some other value (float/list/dict). -/
inductive PyVal where
  | str (s : String)
  | int (n : Int)
  | bool (b : Bool)
  | null
  | other
  deriving DecidableEq, Repr

/-- `lambda_utils.expect_string`. -/
def expect_string (v : PyVal) (field : String) : PyOutcome String :=
  match v with
  | .str s =>
    if pyStrip s = "" then
      .http 400 ("'" ++ field ++ "' muss eine nicht-leere Zeichenkette sein")
    else .ok (pyStrip s)
  | _ => .http 400 ("'" ++ field ++ "' muss eine nicht-leere Zeichenkette sein")

/-- `lambda_utils.expect_positive_int` (bools are rejected before the int test). -/
def expect_positive_int (v : PyVal) (field : String) : PyOutcome Int :=
  match v with
  | .bool _ => .http 400 ("'" ++ field ++ "' muss eine Ganzzahl sein")
  | .int n =>
    if n ≤ 0 then .http 400 ("'" ++ field ++ "' muss größer als 0 sein") else .ok n
  | _ => .http 400 ("'" ++ field ++ "' muss eine Ganzzahl sein")

/-- `lambda_utils.expect_non_negative_int`. -/
def expect_non_negative_int (v : PyVal) (field : String) : PyOutcome Int :=
  match v with
  | .bool _ => .http 400 ("'" ++ field ++ "' muss eine Ganzzahl sein")
  | .int n =>
    if n < 0 then .http 400 ("'" ++ field ++ "' darf nicht negativ sein") else .ok n
  | _ => .http 400 ("'" ++ field ++ "' muss eine Ganzzahl sein")

/-- Bind for the exception-carrying outcome. -/
def PyOutcome.bind {α β : Type} (x : PyOutcome α) (f : α → PyOutcome β) : PyOutcome β :=
  match x with
  | .ok a => f a
  | .http s m => .http s m
  | .uncaught => .uncaught

/-- Map for the exception-carrying outcome. -/
def PyOutcome.map {α β : Type} (f : α → β) (x : PyOutcome α) : PyOutcome β :=
  match x with
  | .ok a => .ok (f a)
  | .http s m => .http s m
  | .uncaught => .uncaught

instance : Monad PyOutcome where
  pure := PyOutcome.ok
  bind := PyOutcome.bind
  map := PyOutcome.map

/-- `lambda_utils.parse_json_body`, with the `base64`+UTF-8 decode and
`json.loads` library calls supplied as oracles (`none` models a raised
exception: `binascii.Error`/`UnicodeDecodeError` for `b64`, which is NOT an
`HttpError`, and `json.JSONDecodeError` for `jsonLoads`, which the source
converts to a 400). -/
def parse_json_body (b64 : String → Option String) (jsonLoads : String → Option JVal)
    (body : Option String) (isBase64Encoded : Bool) : PyOutcome (List (String × JVal)) :=
  let bodyStr := match body with | none => "" | some b => b
  if bodyStr = "" then .ok []
  else
    match (if isBase64Encoded then b64 bodyStr else some bodyStr) with
    | none => .uncaught
    | some text =>
      match jsonLoads text with
      | none => .http 400 "Ungültiges JSON im Request-Body"
      | some (JVal.obj fields) => .ok fields
      | some _ => .http 400 "Request-Body muss ein JSON-Objekt sein"

section Exercises

/-- A DynamoDB attribute value as the handlers use it (string, number —
`Decimal` re-coercion to `int`/`float` is representation-only and modelled
as the identity — or some other value). -/
inductive AttrVal where
  | s (v : String)
  | n (v : Int)
  | other
  deriving DecidableEq, Repr

/-- A stored item: a Python dict from attribute names to values. -/
abbrev Item : Type := List (String × AttrVal)

/-- `item.get(k)`. -/
def getAttr (item : Item) (k : String) : Option AttrVal :=
  (item.find? (fun p => p.1 = k)).map (·.2)

/-- Python truthiness of `item.get(k)`. -/
def attrTruthy (v : Option AttrVal) : Bool :=
  match v with
  | none => false
  | some (.s v) => v ≠ ""
  | some (.n k) => k ≠ 0
  | some .other => true

/-- Python `str(...)` on an attribute value (non-scalar repr is irrelevant
to the claims and rendered as a placeholder). -/
def attrStr (v : AttrVal) : String :=
  match v with
  | .s v => v
  | .n k => toString k
  | .other => "<object>"

/-- `item.get(k, "")`-style read of a string attribute (non-string → ""). -/
def getStrAttrD (item : Item) (k : String) : String :=
  match getAttr item k with
  | some (.s v) => v
  | _ => ""

/-- `(item.get(k) or "")` for attributes expected to hold strings. -/
def strAttrOrEmpty (item : Item) (k : String) : String :=
  match getAttr item k with
  | some (.s v) => v
  | _ => ""

/-- Structured-JSON rendering of a stored item for a response body. -/
def itemToJVal (item : Item) : JVal :=
  JVal.obj (item.map (fun p =>
    (p.1, match p.2 with
          | .s v => JVal.str v
          | .n k => JVal.num k
          | .other => JVal.null)))

/-- `exercises_handler._is_test_exercise`. -/
def is_test_exercise (exercise_id : String) : Bool :=
  let normalized := pyLower (pyStrip exercise_id)
  normalized = "test" ∨ normalized = "test übung" ∨ normalized = "testübung"

/-- The JSON payload of an exercise create/update request; `PyVal.null`
stands for an absent key (every access in the source goes through
`payload.get(...)`, which collapses the two). -/
structure ExercisePayload where
  id : PyVal := .null
  name : PyVal := .null
  instruction : PyVal := .null
  mindfulness : PyVal := .null
  break_bell : PyVal := .null
  prep_time : PyVal := .null
  duration : PyVal := .null
  rep_time : PyVal := .null
  rest_time : PyVal := .null
  sets : PyVal := .null
  previousId : PyVal := .null
  deriving DecidableEq, Repr

/-- `exercises_handler._normalize_optional_string`. -/
def normalize_optional_string (v : PyVal) (field : String) : PyOutcome (Option String) :=
  match v with
  | .null => .ok none
  | .str s => .ok (if pyStrip s = "" then none else some (pyStrip s))
  | _ => .http 400 ("'" ++ field ++ "' muss eine Zeichenkette sein")

/-- `exercises_handler._parse_optional_int` (`None` and `""` mean absent). -/
def parse_optional_int (v : PyVal) (field : String) (positive : Bool) :
    PyOutcome (Option Int) :=
  match v with
  | .null => .ok none
  | .str s =>
    if s = "" then .ok none
    else .http 400 ("'" ++ field ++ "' muss eine Ganzzahl sein")
  | .bool _ => .http 400 ("'" ++ field ++ "' muss eine Ganzzahl sein")
  | .int n =>
    if positive then (expect_positive_int (.int n) field).map some
    else (expect_non_negative_int (.int n) field).map some
  | .other => .http 400 ("'" ++ field ++ "' muss eine Ganzzahl sein")

/-- Append an optional attribute if the parsed value is present. -/
def appendOpt (item : Item) (k : String) (v : Option AttrVal) : Item :=
  match v with
  | none => item
  | some a => item ++ [(k, a)]

/-- `exercises_handler._build_item`. -/
def build_item (p : ExercisePayload) : PyOutcome Item := do
  let exercise_id ← expect_string p.id "id"
  if is_test_exercise exercise_id then
    PyOutcome.http 400 "Test-Übungen können nicht in der Datenbank gespeichert werden"
  else do
  let name ← expect_string p.name "name"
  let instruction ← expect_string p.instruction "instruction"
  let item : Item :=
    [("exercise_id", .s exercise_id), ("id", .s exercise_id),
     ("name", .s name), ("instruction", .s instruction)]
  let mindfulness ← normalize_optional_string p.mindfulness "mindfulness"
  let break_bell ← normalize_optional_string p.break_bell "break_bell"
  let item := appendOpt (appendOpt item "mindfulness" (mindfulness.map .s))
              "break_bell" (break_bell.map .s)
  let prep ← parse_optional_int p.prep_time "prep_time" false
  let dur ← parse_optional_int p.duration "duration" false
  let rep ← parse_optional_int p.rep_time "rep_time" false
  let rest ← parse_optional_int p.rest_time "rest_time" false
  let item := appendOpt (appendOpt (appendOpt (appendOpt item
    "prep_time" (prep.map .n)) "duration" (dur.map .n))
    "rep_time" (rep.map .n)) "rest_time" (rest.map .n)
  let sets ← parse_optional_int p.sets "sets" true
  let item := appendOpt item "sets" (sets.map .n)
  if (getAttr item "sets").isNone then
    PyOutcome.http 400 "'sets' muss angegeben werden"
  else
    pure item

/-- `exercises_handler._sanitize_items` on one item: drop the internal
`exercise_id` key (numeric re-coercion is the identity in this model). -/
def sanitize_item (item : Item) : Item :=
  item.filter (fun p => p.1 ≠ "exercise_id")

/-- DynamoDB partition key of a stored exercise. -/
def keyOf (item : Item) : String :=
  getStrAttrD item "exercise_id"

/-- Sort key used by the exercise listing: `(entry.get("name") or "").lower()`. -/
def nameKey (item : Item) : String :=
  pyLower (strAttrOrEmpty item "name")

/-- The item list served by `exercises_handler._list_exercises`: sanitize,
drop records without a truthy `id` and records with a reserved test id,
sort by lowercased name (Python `list.sort` with this key is stable
ascending, as `pySort` is). -/
def visible_exercises (raw : List Item) : List Item :=
  pySort (fun a b => pyStrLe (nameKey a) (nameKey b))
    ((raw.map sanitize_item).filter (fun it =>
      attrTruthy (getAttr it "id") &&
        ! is_test_exercise (attrStr ((getAttr it "id").getD .other))))

/-- `exercises_handler._list_exercises`; `scan = none` models a raised
`BotoCoreError`/`ClientError` from the table scan. -/
def list_exercises (scan : Option (List Item)) : PyOutcome HttpResponse :=
  match scan with
  | none => .http 502 "Übungen konnten nicht geladen werden"
  | some raw =>
    .ok (json_response 200
      [("items", JVal.arr ((visible_exercises raw).map itemToJVal)),
       ("count", JVal.num (visible_exercises raw).length)])

/-- `exercises_handler._get_exercise`; `fetch = none` models a raised store
error, `some none` a missing item. -/
def get_exercise (fetch : Option (Option Item)) : PyOutcome HttpResponse :=
  match fetch with
  | none => .http 502 "Übung konnte nicht geladen werden"
  | some none => .http 404 "Übung wurde nicht gefunden"
  | some (some item) =>
    if item.isEmpty || is_test_exercise (getStrAttrD item "id") then
      .http 404 "Übung wurde nicht gefunden"
    else
      .ok (json_response 200 [("item", itemToJVal (sanitize_item item))])

/-- `exercises_handler._create_exercise` against a store honouring the
`attribute_not_exists(exercise_id)` conditional write; returns the
response outcome and the store after the call. -/
def create_exercise (store : List Item) (p : ExercisePayload) :
    PyOutcome HttpResponse × List Item :=
  match build_item p with
  | .ok item =>
    if store.any (fun it => keyOf it = keyOf item) then
      (.http 409 "Es existiert bereits eine Übung mit dieser ID", store)
    else
      (.ok (json_response 201 [("item", itemToJVal (sanitize_item item))]),
       store ++ [item])
  | .http s m => (.http s m, store)
  | .uncaught => (.uncaught, store)

/-- `exercises_handler._update_exercise` (unconditional overwrite plus
best-effort deletion of a renamed id). -/
def update_exercise (store : List Item) (path_id : String) (p : ExercisePayload) :
    PyOutcome HttpResponse × List Item :=
  match build_item p with
  | .ok item =>
    let store₁ := store.filter (fun it => keyOf it ≠ keyOf item) ++ [item]
    let previous_id := match p.previousId with
      | .str s => if s = "" then path_id else s
      | _ => path_id
    let store₂ :=
      if previous_id ≠ "" ∧ previous_id ≠ getStrAttrD item "id" then
        store₁.filter (fun it => keyOf it ≠ previous_id)
      else store₁
    (.ok (json_response 200 [("item", itemToJVal (sanitize_item item))]), store₂)
  | .http s m => (.http s m, store)
  | .uncaught => (.uncaught, store)

/-- `exercises_handler._delete_exercise` (`ReturnValues="ALL_OLD"`: the
response carries `Attributes` exactly when the key existed). -/
def delete_exercise (store : List Item) (exercise_id : String) :
    PyOutcome HttpResponse × List Item :=
  if is_test_exercise exercise_id then
    (.http 404 "Übung wurde nicht gefunden", store)
  else
    match store.find? (fun it => keyOf it = exercise_id) with
    | none => (.http 404 "Übung wurde nicht gefunden", store)
    | some _ =>
      (.ok (json_response 204 [("status", JVal.str "deleted")]),
       store.filter (fun it => keyOf it ≠ exercise_id))

/-- `exercises_handler._create_exercise` with the store-error branch of its
`try/except` modelled: `putRaises` stands for a raised `BotoCoreError`, or a
`ClientError` other than the conditional-check failure, on `put_item`. -/
def create_exercise_raising (store : List Item) (putRaises : Bool) (p : ExercisePayload) :
    PyOutcome HttpResponse × List Item :=
  match build_item p with
  | .ok item =>
    if putRaises then
      (.http 502 "Übung konnte nicht gespeichert werden", store)
    else if store.any (fun it => keyOf it = keyOf item) then
      (.http 409 "Es existiert bereits eine Übung mit dieser ID", store)
    else
      (.ok (json_response 201 [("item", itemToJVal (sanitize_item item))]),
       store ++ [item])
  | .http s m => (.http s m, store)
  | .uncaught => (.uncaught, store)

/-- `exercises_handler._update_exercise` with the store-error branch of the
`put_item` `try/except` modelled (`putRaises`); the best-effort `delete_item`
cleanup swallows its own errors in the source and stays as in
`update_exercise`. -/
def update_exercise_raising (store : List Item) (putRaises : Bool) (path_id : String)
    (p : ExercisePayload) : PyOutcome HttpResponse × List Item :=
  match build_item p with
  | .ok item =>
    if putRaises then
      (.http 502 "Übung konnte nicht aktualisiert werden", store)
    else
      let store₁ := store.filter (fun it => keyOf it ≠ keyOf item) ++ [item]
      let previous_id := match p.previousId with
        | .str s => if s = "" then path_id else s
        | _ => path_id
      let store₂ :=
        if previous_id ≠ "" ∧ previous_id ≠ getStrAttrD item "id" then
          store₁.filter (fun it => keyOf it ≠ previous_id)
        else store₁
      (.ok (json_response 200 [("item", itemToJVal (sanitize_item item))]), store₂)
  | .http s m => (.http s m, store)
  | .uncaught => (.uncaught, store)

/-- `exercises_handler._delete_exercise` with the store-error branch of the
`delete_item` `try/except` modelled (`deleteRaises`). -/
def delete_exercise_raising (store : List Item) (deleteRaises : Bool)
    (exercise_id : String) : PyOutcome HttpResponse × List Item :=
  if is_test_exercise exercise_id then
    (.http 404 "Übung wurde nicht gefunden", store)
  else if deleteRaises then
    (.http 502 "Übung konnte nicht gelöscht werden", store)
  else
    match store.find? (fun it => keyOf it = exercise_id) with
    | none => (.http 404 "Übung wurde nicht gefunden", store)
    | some _ =>
      (.ok (json_response 204 [("status", JVal.str "deleted")]),
       store.filter (fun it => keyOf it ≠ exercise_id))

end Exercises

section Progress

/-- `progress_handler.DEFAULT_LIST_LIMIT`. -/
def DEFAULT_LIST_LIMIT : Nat := 250

/-- `progress_handler.MAX_LIST_LIMIT`. -/
def MAX_LIST_LIMIT : Nat := 500

/-- `progress_handler._parse_limit` over the event's query-string
parameters (`none` models a `null`/absent mapping). -/
def parse_limit (qsp : Option (List (String × String))) : PyOutcome Nat :=
  let params := qsp.getD []
  match (params.find? (fun p => p.1 = "limit")).map (·.2) with
  | none => .ok DEFAULT_LIST_LIMIT
  | some raw =>
    if raw = "" then .ok DEFAULT_LIST_LIMIT
    else
      match pyInt raw with
      | none => .http 400 "'limit' muss eine Ganzzahl sein"
      | some l =>
        if l ≤ 0 then .http 400 "'limit' muss größer als 0 sein"
        else .ok (min l.toNat MAX_LIST_LIMIT)

/-- One response of `progress_table.scan`. -/
structure ScanPage where
  items : List Item
  lastEvaluatedKey : Option String
  deriving DecidableEq, Repr

/-- A store answer to one scan call: a page, or a raised
`BotoCoreError`/`ClientError`. -/
inductive ScanResp where
  | page (p : ScanPage)
  | err
  deriving DecidableEq, Repr

/-- The scan loop of `progress_handler._list_progress_entries`: `resps` is
the stream of store responses to successive scan calls; returns the
accumulated (sanitized — the identity here) items together with the trace of
requested page sizes (`Limit=` values).  A raised scan error is NOT caught by
the source and propagates as an uncaught exception. -/
def list_loop (limit : Nat) : List ScanResp → List Item → PyOutcome (List Item) × List Nat
  | [], acc => (.ok acc, [])
  | resp :: rest, acc =>
    if limit ≤ acc.length then (.ok acc, [])
    else
      let pageSize := max 1 (min (limit - acc.length) 100)
      match resp with
      | .err => (.uncaught, [pageSize])
      | .page pg =>
        let acc' := acc ++ pg.items
        match pg.lastEvaluatedKey with
        | none => (.ok acc', [pageSize])
        | some _ =>
          let r := list_loop limit rest acc'
          (r.1, pageSize :: r.2)

/-- Sort key of the progress listing: `item.get("completed_at") or ""`
(the handler only ever stores strings there). -/
def completedKey (item : Item) : String :=
  strAttrOrEmpty item "completed_at"

/-- `progress_handler._list_progress_entries`. -/
def list_progress_entries (resps : List ScanResp)
    (qsp : Option (List (String × String))) : PyOutcome HttpResponse := do
  let limit ← parse_limit qsp
  let items ← (list_loop limit resps []).1
  let sorted := pySort (fun a b => pyStrLe (completedKey b) (completedKey a)) items
  pure (json_response 200 [("items", JVal.arr ((sorted.take limit).map itemToJVal))])

/-- The JSON payload of a progress POST; `PyVal.null` stands for an absent
key (`payload.get` and the `"durationMs" in payload` test agree on the
outcome for both). -/
structure ProgressPayload where
  clientId : PyVal := .null
  exerciseId : PyVal := .null
  totalSets : PyVal := .null
  setsCompleted : PyVal := .null
  durationMs : PyVal := .null
  exerciseName : PyVal := .null
  repTime : PyVal := .null
  restTime : PyVal := .null
  prepTime : PyVal := .null
  startedAt : PyVal := .null
  finishedAt : PyVal := .null
  deriving DecidableEq, Repr

/-- `progress_handler._extract_duration`. -/
def extract_duration (v : PyVal) : PyOutcome (Option Int) :=
  match v with
  | .null => .ok none
  | .bool _ => .http 400 "'durationMs' muss eine Ganzzahl sein"
  | .int n =>
    if n < 0 then .http 400 "'durationMs' darf nicht negativ sein"
    else .ok (some n)
  | _ => .http 400 "'durationMs' muss eine Ganzzahl sein"

/-- String case of `progress_handler._parse_iso_timestamp`: trim, map `"Z"`
to `"+00:00"`, parse, convert to UTC, and render with a literal `"Z"`.
An `OverflowError` from `astimezone` is an uncaught exception. -/
def parse_iso_core (s : String) (field : String) : PyOutcome (Option String) :=
  let trimmed := pyStrip s
  if trimmed = "" then .ok none
  else
    match pyFromIsoformat (pyReplace trimmed "Z" "+00:00") with
    | none => .http 400 ("'" ++ field ++ "' ist kein gültiger ISO-8601 Zeitstempel")
    | some d =>
      match astimezoneUtc d with
      | none => .uncaught
      | some du => .ok (some (pyReplace (pyIsoformat du) "+00:00" "Z"))

/-- `progress_handler._parse_iso_timestamp`. -/
def parse_iso_timestamp (v : PyVal) (field : String) : PyOutcome (Option String) :=
  match v with
  | .null => .ok none
  | .str s => parse_iso_core s field
  | _ => .http 400 ("'" ++ field ++ "' muss ein ISO-8601 String sein")

/-- `progress_handler._utc_now_iso`, with the clock supplied as a
`PyDatetime` (an aware UTC value, offset 0). -/
def utc_now_iso (now : PyDatetime) : String :=
  pyReplace (pyIsoformat now) "+00:00" "Z"

/-- The `if rep_time is not None: rep_time = expect_positive_int(...)` step
of `_store_progress_entry`. -/
def optional_positive_int (v : PyVal) (field : String) : PyOutcome (Option Int) :=
  match v with
  | .null => pure none
  | w => (expect_positive_int w field).map some

/-- The `if ... is not None: expect_non_negative_int(...)` step of
`_store_progress_entry`. -/
def optional_non_negative_int (v : PyVal) (field : String) : PyOutcome (Option Int) :=
  match v with
  | .null => pure none
  | w => (expect_non_negative_int w field).map some

/-- Validation and item construction of `progress_handler._store_progress_entry`
(everything between `parse_json_body` and the `put_item` call, in source
order). -/
def build_progress_item (now : PyDatetime) (p : ProgressPayload) : PyOutcome Item := do
  let client_id ← expect_string p.clientId "clientId"
  let exercise_id ← expect_string p.exerciseId "exerciseId"
  let total_sets ← expect_positive_int p.totalSets "totalSets"
  let sets_completed ← expect_positive_int p.setsCompleted "setsCompleted"
  if sets_completed < total_sets then
    PyOutcome.http 400 "Die Übung wurde nicht vollständig abgeschlossen"
  else do
  let duration_ms ← extract_duration p.durationMs
  let exercise_name ← normalize_optional_string p.exerciseName "exerciseName"
  let rep_time ← optional_positive_int p.repTime "repTime"
  let rest_time ← optional_non_negative_int p.restTime "restTime"
  let prep_time ← optional_non_negative_int p.prepTime "prepTime"
  let started_at ← parse_iso_timestamp p.startedAt "startedAt"
  let finished_at ← parse_iso_timestamp p.finishedAt "finishedAt"
  let item : Item :=
    [("client_id", .s client_id), ("completed_at", .s (utc_now_iso now)),
     ("exercise_id", .s exercise_id), ("total_sets", .n total_sets),
     ("sets_completed", .n sets_completed)]
  let item := appendOpt item "exercise_name" (exercise_name.map .s)
  let item := appendOpt item "duration_ms" (duration_ms.map .n)
  let item := appendOpt item "rep_time_seconds" (rep_time.map .n)
  let item := appendOpt item "rest_time_seconds" (rest_time.map .n)
  let item := appendOpt item "prep_time_seconds" (prep_time.map .n)
  let item := appendOpt item "started_at" (started_at.map .s)
  let item := appendOpt item "finished_at" (finished_at.map .s)
  pure item

/-- `progress_handler._store_progress_entry` after body parsing: build the
item and put it (`putRaises` models a raised store error on `put_item`).
Returns the outcome together with the list of items actually put. -/
def store_progress_entry (now : PyDatetime) (putRaises : Bool) (p : ProgressPayload) :
    PyOutcome HttpResponse × List Item :=
  match build_progress_item now p with
  | .ok item =>
    if putRaises then
      (.http 502 "Übungsfortschritt konnte nicht gespeichert werden", [])
    else
      (.ok (json_response 201
        [("status", JVal.str "stored"), ("completedAt", JVal.str (completedKey item))]),
       [item])
  | .http s m => (.http s m, [])
  | .uncaught => (.uncaught, [])

/-- A JSON value as `payload.get(...)` hands it to the validators. -/
def jvalToPyVal (v : JVal) : PyVal :=
  match v with
  | .str s => .str s
  | .num n => .int n
  | .bool b => .bool b
  | .null => .null
  | .arr _ => .other
  | .obj _ => .other

/-- Field lookup on a parsed JSON object (`payload.get(k)`). -/
def fieldOf (fields : List (String × JVal)) (k : String) : PyVal :=
  match (fields.find? (fun p => p.1 = k)).map (·.2) with
  | none => .null
  | some v => jvalToPyVal v

/-- Assemble the progress payload from the parsed JSON body. -/
def progressPayloadOf (fields : List (String × JVal)) : ProgressPayload :=
  { clientId := fieldOf fields "clientId", exerciseId := fieldOf fields "exerciseId",
    totalSets := fieldOf fields "totalSets", setsCompleted := fieldOf fields "setsCompleted",
    durationMs := fieldOf fields "durationMs", exerciseName := fieldOf fields "exerciseName",
    repTime := fieldOf fields "repTime", restTime := fieldOf fields "restTime",
    prepTime := fieldOf fields "prepTime", startedAt := fieldOf fields "startedAt",
    finishedAt := fieldOf fields "finishedAt" }

/-- An API-Gateway event as the progress handler reads it. -/
structure ProgressEvent where
  method : String
  queryStringParameters : Option (List (String × String)) := none
  body : Option String := none
  isBase64Encoded : Bool := false

/-- Body of `progress_handler.lambda_handler` (before the error wrapper):
dispatch on the upper-cased HTTP method — OPTIONS, GET and POST only. -/
def progress_handler_core (now : PyDatetime) (putRaises : Bool)
    (resps : List ScanResp) (b64 : String → Option String)
    (jsonLoads : String → Option JVal) (event : ProgressEvent) :
    PyOutcome HttpResponse :=
  let method := pyUpper event.method
  if method = "OPTIONS" then .ok (json_response 200 [("status", JVal.str "ok")])
  else if method = "GET" then list_progress_entries resps event.queryStringParameters
  else if method = "POST" then do
    let fields ← parse_json_body b64 jsonLoads event.body event.isBase64Encoded
    (store_progress_entry now putRaises (progressPayloadOf fields)).1
  else .http 405 "Methode wird nicht unterstützt"

/-- `progress_handler.lambda_handler` = dispatch wrapped in
`with_error_handling`. -/
def progress_lambda_handler (now : PyDatetime) (putRaises : Bool)
    (resps : List ScanResp) (b64 : String → Option String)
    (jsonLoads : String → Option JVal) (event : ProgressEvent) : HttpResponse :=
  with_error_handling (progress_handler_core now putRaises resps b64 jsonLoads event)

end Progress

section Polly

/-- Parameters of a `polly.synthesize_speech` call. -/
structure PollyParams where
  text : String
  outputFormat : String
  voiceId : String
  languageCode : String
  engine : Option String
  deriving DecidableEq, Repr

/-- Outcome of one `polly.synthesize_speech` call: a response (whose
`AudioStream` may be absent), a `ClientError` carrying
`response["Error"]["Code"/"Message"]`, or a `BotoCoreError`. -/
inductive PollyOutcome where
  | ok (audioStream : Option (List Nat))
  | clientError (code message : String)
  | botoCoreError
  deriving DecidableEq, Repr

/-- One voice record of a `DescribeVoices` response (its `SupportedEngines`
attribute may be absent/null). -/
structure PollyVoice where
  supportedEngines : Option (List String)
  deriving DecidableEq, Repr

/-- Outcome of `polly.describe_voices`: a raised client error, or a response
whose `Voices` list may be absent/empty. -/
inductive DescribeOutcome where
  | err
  | ok (voices : List PollyVoice)
  deriving DecidableEq, Repr

/-- `polly_handler._supported_engines_for_voice` (the `lru_cache` memoizes a
pure function of the voice and is semantically transparent): the engine set
for the voice, empty when the query fails or returns nothing. -/
def supported_engines_for_voice (describe : DescribeOutcome) : List String :=
  match describe with
  | .err => []
  | .ok [] => []
  | .ok (v :: _) => v.supportedEngines.getD []

/-- `polly_handler._select_engine`. -/
def select_engine (engines : List String) : Option String :=
  if engines.isEmpty || engines.contains "standard" then none
  else if engines.contains "neural" then some "neural"
  else none

/-- `polly_handler._should_retry_with_neural`, over the client error's
`Code`/`Message` strings and the requested voice. -/
def should_retry_with_neural (errCode errMessage voice : String) : Bool :=
  let error_code := pyLower (pyStrip errCode)
  let error_message := pyLower (pyStrip errMessage)
  let normalized_voice := pyLower (pyStrip voice)
  if normalized_voice = "" then false
  else if error_code = "invalidparametercombination" ∨
          error_code = "enginenotsupportedexception" then true
  else if strContains error_message "neural" then true
  else if normalized_voice = "daniel" ∨ normalized_voice = "hannah" ∨
          normalized_voice = "vicki" then true
  else false

/-- Read the audio stream from a successful Polly response
(`AudioStream` absent → 502). -/
def polly_finish (audioStream : Option (List Nat)) : PyOutcome (List Nat) :=
  match audioStream with
  | none => .http 502 "Polly lieferte keinen Audiostream"
  | some bytes => .ok bytes

/-- The `base_params` dict of `polly_handler._synthesize_speech`. -/
def polly_base_params (text language voice : String) : PollyParams :=
  { text := text, outputFormat := "mp3", voiceId := voice,
    languageCode := language, engine := none }

/-- The retry parameters: `base_params` with the engine forced to neural. -/
def polly_retry_params (text language voice : String) : PollyParams :=
  { polly_base_params text language voice with engine := some "neural" }

/-- `polly_handler._synthesize_speech`: engine selection, the synthesis call,
and the single neural retry on an engine-related client rejection.  `invoke`
is the Polly service; the second component is the trace of calls made. -/
def synthesize_speech (invoke : PollyParams → PollyOutcome) (engines : List String)
    (text language voice : String) : PyOutcome (List Nat) × List PollyParams :=
  let engine := select_engine engines
  let base_params := polly_base_params text language voice
  let params := match engine with
    | some e => { base_params with engine := some e }
    | none => base_params
  match invoke params with
  | .ok stream => (polly_finish stream, [params])
  | .clientError code message =>
    if engine.isNone ∧ should_retry_with_neural code message voice then
      let retry_params := polly_retry_params text language voice
      match invoke retry_params with
      | .ok stream => (polly_finish stream, [params, retry_params])
      | .clientError _ _ =>
        (.http 502 "Fehler bei der Sprachsynthese", [params, retry_params])
      | .botoCoreError =>
        (.http 502 "Fehler bei der Sprachsynthese", [params, retry_params])
    else
      (.http 502 "Fehler bei der Sprachsynthese", [params])
  | .botoCoreError => (.http 502 "Fehler bei der Sprachsynthese", [params])

end Polly

/-! ## Theorems -/

/-- `_select_engine` restated in the claim's case split. -/
theorem select_engine_cases (engines : List String) :
    select_engine engines =
      if engines = [] ∨ "standard" ∈ engines then none
      else if "neural" ∈ engines then some "neural" else none := by
  unfold select_engine
  by_cases h1 : engines = [] ∨ "standard" ∈ engines
  · have : (engines.isEmpty || engines.contains "standard") = true := by
      rcases h1 with h | h
      · simp [h]
      · simp [h]
    rw [if_pos this, if_pos h1]
  · have : (engines.isEmpty || engines.contains "standard") = false := by
      push_neg at h1
      simp [List.isEmpty_iff, h1.1, h1.2]
    rw [if_neg h1, this, if_neg (by simp)]
    by_cases h2 : "neural" ∈ engines
    · simp [h2]
    · simp [h2]

/-- C1: the first synthesis call passes the engine parameter exactly as the
claim's case split over the voice's supported-engine set prescribes: no
explicit engine when the set contains "standard" or is empty (query failed /
returned nothing); engine "neural" when the set lacks "standard" but contains
"neural"; no explicit engine otherwise. -/
theorem claim_c1_engine_selection (describe : DescribeOutcome)
    (invoke : PollyParams → PollyOutcome) (text language voice : String) :
    (synthesize_speech invoke (supported_engines_for_voice describe)
        text language voice).2.head? =
      some { polly_base_params text language voice with
             engine :=
               if supported_engines_for_voice describe = [] ∨
                  "standard" ∈ supported_engines_for_voice describe then none
               else if "neural" ∈ supported_engines_for_voice describe then
                 some "neural"
               else none } := by
  have hsel := select_engine_cases (supported_engines_for_voice describe)
  rcases hsel' : select_engine (supported_engines_for_voice describe) with _ | e
  · rw [hsel'] at hsel
    simp only [synthesize_speech, hsel']
    rw [← hsel]
    rcases h : invoke (polly_base_params text language voice) with s | ⟨c, m⟩ | _
    · rfl
    · split
      next s2 heq => exact PollyOutcome.noConfusion heq
      next c2 m2 heq =>
        injection heq with hc hm
        subst hc
        subst hm
        by_cases hr : should_retry_with_neural c m voice = true
        · rw [if_pos ⟨rfl, hr⟩]
          rcases h2 : invoke (polly_retry_params text language voice) with s2 | ⟨c3, m3⟩ | _ <;>
            rfl
        · rw [if_neg (fun hc => hr hc.2)]
          rfl
      next heq => exact PollyOutcome.noConfusion heq
    · rfl
  · rw [hsel'] at hsel
    simp only [synthesize_speech, hsel', polly_base_params]
    rw [← hsel]
    rcases h : invoke (PollyParams.mk text "mp3" voice language (some e)) with s | ⟨c, m⟩ | _
    · rfl
    · split
      next s2 heq => exact PollyOutcome.noConfusion heq
      next c2 m2 heq =>
        injection heq with hc hm
        subst hc
        subst hm
        rw [if_neg (fun hc => by simp at hc)]
        rfl
      next heq => exact PollyOutcome.noConfusion heq
    · rfl

/-- C2: with no explicit engine set, a client rejection that is
engine-related (specific error codes, "neural" in the message, or a known
neural-only voice — part (a) characterizes the test exactly) triggers exactly
one retry with the engine forced to "neural" (part (b): the call trace is the
original call followed by the neural-forced call, and a failing retry is a
generic 502); a non-engine-related rejection (part (c)) or a rejection when
an explicit engine was set (part (d)) yields a generic 502 with no retry.
The 502 message is the fixed string "Fehler bei der Sprachsynthese" — the
real cause never appears in the response. -/
theorem claim_c2_neural_retry (invoke : PollyParams → PollyOutcome)
    (engines : List String) (text language voice : String) :
    (∀ code message,
      should_retry_with_neural code message voice = true ↔
        (pyLower (pyStrip voice) ≠ "" ∧
         (pyLower (pyStrip code) = "invalidparametercombination" ∨
          pyLower (pyStrip code) = "enginenotsupportedexception" ∨
          strContains (pyLower (pyStrip message)) "neural" = true ∨
          pyLower (pyStrip voice) = "daniel" ∨
          pyLower (pyStrip voice) = "hannah" ∨
          pyLower (pyStrip voice) = "vicki"))) ∧
    (∀ code message, select_engine engines = none →
      invoke (polly_base_params text language voice) = .clientError code message →
      should_retry_with_neural code message voice = true →
      (synthesize_speech invoke engines text language voice).2 =
        [polly_base_params text language voice, polly_retry_params text language voice] ∧
      (polly_retry_params text language voice).engine = some "neural" ∧
      (∀ code2 message2,
        invoke (polly_retry_params text language voice) = .clientError code2 message2 →
        (synthesize_speech invoke engines text language voice).1 =
          .http 502 "Fehler bei der Sprachsynthese") ∧
      (invoke (polly_retry_params text language voice) = .botoCoreError →
        (synthesize_speech invoke engines text language voice).1 =
          .http 502 "Fehler bei der Sprachsynthese")) ∧
    (∀ code message, select_engine engines = none →
      invoke (polly_base_params text language voice) = .clientError code message →
      should_retry_with_neural code message voice = false →
      synthesize_speech invoke engines text language voice =
        (.http 502 "Fehler bei der Sprachsynthese",
         [polly_base_params text language voice])) ∧
    (∀ e code message, select_engine engines = some e →
      invoke { polly_base_params text language voice with engine := some e } =
        .clientError code message →
      synthesize_speech invoke engines text language voice =
        (.http 502 "Fehler bei der Sprachsynthese",
         [{ polly_base_params text language voice with engine := some e }])) := by
  refine ⟨?_, ?_, ?_, ?_⟩
  · intro code message
    simp only [should_retry_with_neural]
    split_ifs with h1 h2 h3 h4
    · simp [h1]
    · exact ⟨fun _ => ⟨h1, by tauto⟩, fun _ => rfl⟩
    · exact ⟨fun _ => ⟨h1, by tauto⟩, fun _ => rfl⟩
    · exact ⟨fun _ => ⟨h1, by tauto⟩, fun _ => rfl⟩
    · constructor
      · intro hfalse
        exact absurd hfalse (by simp)
      · rintro ⟨hv, hcase⟩
        rcases hcase with h | h | h | h | h | h <;> tauto
  · intro code message hsel hinv hr
    have key : synthesize_speech invoke engines text language voice =
        ((match invoke (polly_retry_params text language voice) with
          | .ok stream => polly_finish stream
          | .clientError _ _ => PyOutcome.http 502 "Fehler bei der Sprachsynthese"
          | .botoCoreError => PyOutcome.http 502 "Fehler bei der Sprachsynthese"),
         [polly_base_params text language voice,
          polly_retry_params text language voice]) := by
      simp only [synthesize_speech, hsel]
      rw [hinv]
      show (if (none : Option String).isNone = true ∧
               should_retry_with_neural code message voice = true then _ else _) = _
      rw [if_pos ⟨rfl, hr⟩]
      rcases h2 : invoke (polly_retry_params text language voice) with s2 | ⟨c3, m3⟩ | _ <;>
        rfl
    refine ⟨by rw [key], rfl, ?_, ?_⟩
    · intro code2 message2 h2
      rw [key]
      rw [h2]
    · intro h2
      rw [key, h2]
  · intro code message hsel hinv hr
    simp only [synthesize_speech, hsel]
    rw [hinv]
    show (if (none : Option String).isNone = true ∧
             should_retry_with_neural code message voice = true then _ else _) = _
    rw [if_neg (fun hcond => by simp [hr] at hcond)]
  · intro e code message hsel hinv
    simp only [synthesize_speech, hsel]
    rw [hinv]
    show (if (some e).isNone = true ∧
             should_retry_with_neural code message voice = true then _ else _) = _
    rw [if_neg (fun hcond => by simp at hcond)]

/-- Witness for C2: concrete engine-related rejection (code
`InvalidParameterCombination`, voice "Marlene", empty engine set), whose
retry is rejected again — the trace shows exactly one neural-forced retry and
the result is the generic 502. -/
theorem claim_c2_neural_retry_witness :
    (synthesize_speech
        (fun p => if p.engine = some "neural" then PollyOutcome.clientError "Boom" "kaputt"
                  else PollyOutcome.clientError "InvalidParameterCombination" "x")
        [] "Hallo" "de-DE" "Marlene").2 =
      [polly_base_params "Hallo" "de-DE" "Marlene",
       polly_retry_params "Hallo" "de-DE" "Marlene"] ∧
    (synthesize_speech
        (fun p => if p.engine = some "neural" then PollyOutcome.clientError "Boom" "kaputt"
                  else PollyOutcome.clientError "InvalidParameterCombination" "x")
        [] "Hallo" "de-DE" "Marlene").1 =
      PyOutcome.http 502 "Fehler bei der Sprachsynthese" := by
  have h := (claim_c2_neural_retry
      (fun p => if p.engine = some "neural" then PollyOutcome.clientError "Boom" "kaputt"
                else PollyOutcome.clientError "InvalidParameterCombination" "x")
      [] "Hallo" "de-DE" "Marlene").2.1
      "InvalidParameterCombination" "x" (by decide) (by decide) (by decide)
  exact ⟨h.1, h.2.2.1 "Boom" "kaputt" (by decide)⟩

/-- `do`-bind on a successful outcome. -/
theorem pyBind_ok {α β : Type} (a : α) (f : α → PyOutcome β) :
    (PyOutcome.ok a >>= f) = f a := rfl

/-- `do`-bind on a raised `HttpError`. -/
theorem pyBind_http {α β : Type} (s : Nat) (m : String) (f : α → PyOutcome β) :
    ((PyOutcome.http s m : PyOutcome α) >>= f) = PyOutcome.http s m := rfl

/-- `do`-bind on an uncaught exception. -/
theorem pyBind_uncaught {α β : Type} (f : α → PyOutcome β) :
    ((PyOutcome.uncaught : PyOutcome α) >>= f) = PyOutcome.uncaught := rfl

/-- `pure` in the outcome monad. -/
theorem pyPure_eq {α : Type} (a : α) : (pure a : PyOutcome α) = PyOutcome.ok a := rfl

/-- Stable insertion is a permutation of consing. -/
theorem pyInsertSorted_perm {α : Type} (le : α → α → Bool) (a : α) (l : List α) :
    (pyInsertSorted le a l).Perm (a :: l) := by
  induction l with
  | nil => rfl
  | cons b bs ih =>
    rw [pyInsertSorted]
    split
    · rfl
    · exact (List.Perm.cons b ih).trans (List.Perm.swap a b bs)

/-- The stable sort is a permutation of its input. -/
theorem pySort_perm {α : Type} (le : α → α → Bool) (l : List α) :
    (pySort le l).Perm l := by
  induction l with
  | nil => rfl
  | cons a as ih =>
    exact (pyInsertSorted_perm le a (pySort le as)).trans (List.Perm.cons a ih)

/-- Stable insertion preserves sortedness (for a transitive, total comparator). -/
theorem pyInsertSorted_pairwise {α : Type} (le : α → α → Bool)
    (htrans : ∀ a b c, le a b = true → le b c = true → le a c = true)
    (htotal : ∀ a b, (le a b || le b a) = true)
    (a : α) (l : List α) (h : l.Pairwise (fun x y => le x y = true)) :
    (pyInsertSorted le a l).Pairwise (fun x y => le x y = true) := by
  induction l with
  | nil => simp [pyInsertSorted]
  | cons b bs ih =>
    rw [List.pairwise_cons] at h
    rw [pyInsertSorted]
    split
    next hle =>
      rw [List.pairwise_cons]
      refine ⟨?_, List.pairwise_cons.mpr h⟩
      intro x hx
      rcases List.mem_cons.mp hx with rfl | hx
      · exact hle
      · exact htrans a b x hle (h.1 x hx)
    next hle =>
      have hba : le b a = true := by
        have := htotal a b
        rw [Bool.or_eq_true] at this
        rcases this with h' | h'
        · exact absurd h' hle
        · exact h'
      rw [List.pairwise_cons]
      refine ⟨?_, ih h.2⟩
      intro x hx
      rcases List.mem_cons.mp ((pyInsertSorted_perm le a bs).mem_iff.mp hx) with rfl | h''
      · exact hba
      · exact h.1 x h''

/-- The stable sort sorts (for a transitive, total comparator). -/
theorem pySort_sorted {α : Type} {le : α → α → Bool}
    (htrans : ∀ a b c, le a b = true → le b c = true → le a c = true)
    (htotal : ∀ a b, (le a b || le b a) = true)
    (l : List α) : (pySort le l).Pairwise (fun x y => le x y = true) := by
  induction l with
  | nil => exact List.Pairwise.nil
  | cons a as ih => exact pyInsertSorted_pairwise le htrans htotal a (pySort le as) ih

/-- Character comparison is on code points. -/
theorem charLt_iff (a b : Char) : a < b ↔ a.toNat < b.toNat := by
  rw [Char.lt_def]
  exact ⟨fun h => h, fun h => h⟩

/-- The executable lexicographic comparison agrees with the core `List.lt`
order on character lists (the order underlying `String`'s `<` and `≤`). -/
theorem listLtb_iff : ∀ l₁ l₂ : List Char, listLtb l₁ l₂ = true ↔ List.lt l₁ l₂
  | [], [] => by
    simp only [listLtb]
    exact ⟨fun h => Bool.noConfusion h, fun h => absurd h (by exact nofun)⟩
  | [], b :: bs => by
    simp only [listLtb]
    exact ⟨fun _ => List.lt.nil b bs, fun _ => trivial⟩
  | a :: as, [] => by
    simp only [listLtb]
    exact ⟨fun h => Bool.noConfusion h, fun h => absurd h (by exact nofun)⟩
  | a :: as, b :: bs => by
    simp only [listLtb]
    by_cases h1 : a.toNat < b.toNat
    · rw [if_pos h1]
      exact ⟨fun _ => List.lt.head as bs ((charLt_iff a b).mpr h1), fun _ => rfl⟩
    · rw [if_neg h1]
      by_cases h2 : b.toNat < a.toNat
      · rw [if_pos h2]
        constructor
        · intro h
          exact Bool.noConfusion h
        · intro h
          cases h with
          | head _ _ h' => exact absurd ((charLt_iff a b).mp h') h1
          | tail _ hba _ => exact absurd ((charLt_iff b a).mpr h2) hba
      · rw [if_neg h2]
        rw [listLtb_iff as bs]
        constructor
        · intro h
          exact List.lt.tail (fun h' => h1 ((charLt_iff a b).mp h'))
            (fun h' => h2 ((charLt_iff b a).mp h')) h
        · intro h
          cases h with
          | head _ _ h' => exact absurd ((charLt_iff a b).mp h') h1
          | tail _ _ h' => exact h'

/-- The executable model of Python string `<=` agrees with Lean's `≤` on
`String` (both are the code-point lexicographic order). -/
theorem pyStrLe_iff (a b : String) : pyStrLe a b = true ↔ a ≤ b := by
  unfold pyStrLe
  rw [Bool.not_eq_true']
  rw [String.le_iff_toList_le, ← not_lt]
  constructor
  · intro h hlt
    have hl : List.lt b.data a.data := by
      rw [List.lt_iff_lex_lt]
      exact hlt
    rw [(listLtb_iff _ _).mpr hl] at h
    exact Bool.noConfusion h
  · intro h
    rcases hb : listLtb b.data a.data with _ | _
    · rfl
    · refine absurd ?_ h
      have hl := (listLtb_iff _ _).mp hb
      rw [List.lt_iff_lex_lt] at hl
      exact hl

/-- Dropping while a predicate fails on every element is the identity. -/
theorem dropWhile_eq_self_of_all {α : Type} (p : α → Bool) (l : List α)
    (h : ∀ c ∈ l, p c = false) : l.dropWhile p = l := by
  cases l with
  | nil => rfl
  | cons c cs =>
    rw [List.dropWhile_cons, h c (by simp)]
    simp

/-- The head surviving `dropWhile` fails the predicate. -/
theorem dropWhile_head_not {α : Type} (p : α → Bool) (l : List α) :
    ∀ c ∈ (l.dropWhile p).head?, p c = false := by
  induction l with
  | nil => simp
  | cons c cs ih =>
    rw [List.dropWhile_cons]
    split
    · exact ih
    · intro d hd
      simp only [List.head?_cons, Option.mem_def, Option.some.injEq] at hd
      subst hd
      simp_all

/-- `dropWhile` keeps the last element (or empties the list). -/
theorem getLast?_dropWhile {α : Type} (p : α → Bool) (l : List α) :
    l.dropWhile p = [] ∨ (l.dropWhile p).getLast? = l.getLast? := by
  induction l with
  | nil => left; rfl
  | cons c cs ih =>
    rw [List.dropWhile_cons]
    split
    · rcases ih with h | h
      · left; exact h
      · rcases cs with _ | ⟨c2, cs'⟩
        · left; simpa using h
        · right
          rw [h, List.getLast?_cons_cons]
    · right; rfl

/-- Dropping while the predicate fails on the head is the identity. -/
theorem dropWhile_eq_self_of_head {α : Type} (p : α → Bool) (l : List α)
    (h : ∀ c ∈ l.head?, p c = false) : l.dropWhile p = l := by
  cases l with
  | nil => rfl
  | cons c cs =>
    rw [List.dropWhile_cons, h c rfl]
    simp

/-- `str.strip()` is idempotent. -/
theorem pyStrip_idem (s : String) : pyStrip (pyStrip s) = pyStrip s := by
  rcases s with ⟨l⟩
  show pyStrip ⟨((l.dropWhile pyIsSpace).reverse.dropWhile pyIsSpace).reverse⟩ = _
  set m := l.dropWhile pyIsSpace with hmdef
  set k := m.reverse.dropWhile pyIsSpace with hkdef
  have hk_head : ∀ c ∈ k.head?, pyIsSpace c = false := dropWhile_head_not pyIsSpace m.reverse
  have hk_last : ∀ c ∈ k.getLast?, pyIsSpace c = false := by
    rcases getLast?_dropWhile pyIsSpace m.reverse with h | h
    · rw [← hkdef] at h
      rw [h]
      simp
    · rw [← hkdef] at h
      rw [h, List.getLast?_reverse]
      exact dropWhile_head_not pyIsSpace l
  have h1 : k.reverse.dropWhile pyIsSpace = k.reverse := by
    apply dropWhile_eq_self_of_head
    intro c hc
    rw [List.head?_reverse] at hc
    exact hk_last c hc
  have h2 : k.dropWhile pyIsSpace = k := dropWhile_eq_self_of_head pyIsSpace k hk_head
  show (⟨((k.reverse.dropWhile pyIsSpace).reverse.dropWhile pyIsSpace).reverse⟩ : String) = ⟨k.reverse⟩
  rw [h1, List.reverse_reverse, h2]

/-- The reserved-id test is insensitive to the extra strip done by
`expect_string`. -/
theorem is_test_exercise_strip (s : String) :
    is_test_exercise (pyStrip s) = is_test_exercise s := by
  unfold is_test_exercise
  rw [pyStrip_idem]

/-- A reserved test id never strips to the empty string. -/
theorem is_test_exercise_ne_empty (s : String) (h : is_test_exercise s = true) :
    pyStrip s ≠ "" := by
  intro he
  rw [← is_test_exercise_strip, he] at h
  exact absurd h (by decide)

/-- C3: for a reserved test id ("test"/"Test Übung"/"TESTÜBUNG", compared
case- and surrounding-space-insensitively): create and update are rejected
with 400 (store untouched), get and delete answer 404 (delete without
touching the store), and the listing never contains an item whose id
attribute is reserved — every served item has a truthy, non-reserved id. -/
theorem claim_c3_reserved_test_ids (store : List Item) (p : ExercisePayload)
    (raw : List Item) (rawId qid path_id : String) (r : Option Item) :
    (p.id = PyVal.str rawId → is_test_exercise rawId = true →
      create_exercise store p =
        (.http 400 "Test-Übungen können nicht in der Datenbank gespeichert werden",
         store)) ∧
    (p.id = PyVal.str rawId → is_test_exercise rawId = true →
      update_exercise store path_id p =
        (.http 400 "Test-Übungen können nicht in der Datenbank gespeichert werden",
         store)) ∧
    (is_test_exercise qid = true →
      (∀ it, r = some it → getStrAttrD it "id" = qid) →
      get_exercise (some r) = .http 404 "Übung wurde nicht gefunden") ∧
    (is_test_exercise qid = true →
      delete_exercise store qid = (.http 404 "Übung wurde nicht gefunden", store)) ∧
    (∀ it ∈ visible_exercises raw,
      attrTruthy (getAttr it "id") = true ∧
      is_test_exercise (attrStr ((getAttr it "id").getD AttrVal.other)) = false) := by
  have hbuild : ∀ (hid : p.id = PyVal.str rawId), is_test_exercise rawId = true →
      build_item p =
        .http 400 "Test-Übungen können nicht in der Datenbank gespeichert werden" := by
    intro hid htest
    have hne := is_test_exercise_ne_empty rawId htest
    unfold build_item
    rw [hid]
    simp only [expect_string, if_neg hne, pyBind_ok]
    rw [if_pos (by rw [is_test_exercise_strip]; exact htest)]
  refine ⟨?_, ?_, ?_, ?_, ?_⟩
  · intro hid htest
    unfold create_exercise
    rw [hbuild hid htest]
  · intro hid htest
    unfold update_exercise
    rw [hbuild hid htest]
  · intro htest hcons
    unfold get_exercise
    rcases r with _ | it
    · rfl
    · show (if (List.isEmpty it || is_test_exercise (getStrAttrD it "id")) = true
            then _ else _) = _
      rw [if_pos (by rw [hcons it rfl, htest]; simp)]
  · intro htest
    unfold delete_exercise
    rw [if_pos htest]
  · intro it hmem
    unfold visible_exercises at hmem
    rw [List.Perm.mem_iff (pySort_perm _ _)] at hmem
    rw [List.mem_filter] at hmem
    have hcond := hmem.2
    rw [Bool.and_eq_true] at hcond
    refine ⟨hcond.1, ?_⟩
    have h2 := hcond.2
    rwa [Bool.not_eq_true'] at h2

/-- Witness for C3 at concrete inputs: payload with id "Test Übung" against
the empty store, query id "TESTÜBUNG", a fetched record with id "test", and
a store containing both a reserved and a regular record. -/
theorem claim_c3_reserved_test_ids_witness :
    (create_exercise []
        { id := PyVal.str "Test Übung", name := PyVal.str "n",
          instruction := PyVal.str "i", sets := PyVal.int 3 } =
      (.http 400 "Test-Übungen können nicht in der Datenbank gespeichert werden",
       [])) ∧
    (update_exercise [] "pfad"
        { id := PyVal.str "Test Übung", name := PyVal.str "n",
          instruction := PyVal.str "i", sets := PyVal.int 3 } =
      (.http 400 "Test-Übungen können nicht in der Datenbank gespeichert werden",
       [])) ∧
    (get_exercise (some (some [("exercise_id", AttrVal.s "test"),
        ("id", AttrVal.s "test")])) = .http 404 "Übung wurde nicht gefunden") ∧
    (delete_exercise [[("exercise_id", AttrVal.s "x"), ("id", AttrVal.s "x")]]
        "TESTÜBUNG" =
      (.http 404 "Übung wurde nicht gefunden",
       [[("exercise_id", AttrVal.s "x"), ("id", AttrVal.s "x")]])) ∧
    (∀ it ∈ visible_exercises
        [[("exercise_id", AttrVal.s "test"), ("id", AttrVal.s "test")],
         [("exercise_id", AttrVal.s "x"), ("id", AttrVal.s "x"), ("name", AttrVal.s "X")]],
      attrTruthy (getAttr it "id") = true ∧
      is_test_exercise (attrStr ((getAttr it "id").getD AttrVal.other)) = false) := by
  refine ⟨?_, ?_, ?_, ?_, ?_⟩
  · exact (claim_c3_reserved_test_ids []
      { id := PyVal.str "Test Übung", name := PyVal.str "n",
        instruction := PyVal.str "i", sets := PyVal.int 3 }
      [] "Test Übung" "q" "pfad" none).1 rfl (by decide)
  · exact (claim_c3_reserved_test_ids []
      { id := PyVal.str "Test Übung", name := PyVal.str "n",
        instruction := PyVal.str "i", sets := PyVal.int 3 }
      [] "Test Übung" "q" "pfad" none).2.1 rfl (by decide)
  · exact (claim_c3_reserved_test_ids [] {} [] "r" "test" "pfad"
      (some [("exercise_id", AttrVal.s "test"), ("id", AttrVal.s "test")])).2.2.1
      (by decide) (by intro it hit; cases hit; rfl)
  · exact (claim_c3_reserved_test_ids
      [[("exercise_id", AttrVal.s "x"), ("id", AttrVal.s "x")]] {} [] "r" "TESTÜBUNG"
      "pfad" none).2.2.2.1 (by decide)
  · exact (claim_c3_reserved_test_ids [] {}
      [[("exercise_id", AttrVal.s "test"), ("id", AttrVal.s "test")],
       [("exercise_id", AttrVal.s "x"), ("id", AttrVal.s "x"), ("name", AttrVal.s "X")]]
      "r" "q" "pfad" none).2.2.2.2

/-- C6: catalog create is insert-only-if-absent.  For two create requests
whose payloads build items with the same id against a store not containing
that id, the first returns 201 and inserts; the second then returns 409 and
leaves the store unchanged.  In general a create against a store already
holding the id returns 409 and never writes. -/
theorem claim_c6_create_conflict (store : List Item) (p₁ p₂ : ExercisePayload)
    (item₁ item₂ : Item)
    (h₁ : build_item p₁ = .ok item₁) (h₂ : build_item p₂ = .ok item₂)
    (hsame : keyOf item₂ = keyOf item₁)
    (habsent : store.any (fun it => keyOf it = keyOf item₁) = false) :
    (create_exercise store p₁ =
      (.ok (json_response 201 [("item", itemToJVal (sanitize_item item₁))]),
       store ++ [item₁])) ∧
    (create_exercise (store ++ [item₁]) p₂ =
      (.http 409 "Es existiert bereits eine Übung mit dieser ID",
       store ++ [item₁])) ∧
    (∀ (q : ExercisePayload) (itemq : Item) (storeq : List Item),
      build_item q = .ok itemq →
      storeq.any (fun it => keyOf it = keyOf itemq) = true →
      create_exercise storeq q =
        (.http 409 "Es existiert bereits eine Übung mit dieser ID", storeq)) := by
  refine ⟨?_, ?_, ?_⟩
  · unfold create_exercise
    rw [h₁]
    show (if (store.any fun it => decide (keyOf it = keyOf item₁)) = true
          then _ else _) = _
    rw [if_neg (by simp [habsent])]
  · unfold create_exercise
    rw [h₂]
    show (if ((store ++ [item₁]).any fun it => decide (keyOf it = keyOf item₂)) = true
          then _ else _) = _
    rw [if_pos (by simp [List.any_append, hsame])]
  · intro q itemq storeq hq hpresent
    unfold create_exercise
    rw [hq]
    show (if (storeq.any fun it => decide (keyOf it = keyOf itemq)) = true
          then _ else _) = _
    rw [if_pos hpresent]

/-- Witness for C6: two creates with id "a" against the empty store. -/
theorem claim_c6_create_conflict_witness :
    (create_exercise []
        { id := PyVal.str "a", name := PyVal.str "n",
          instruction := PyVal.str "i", sets := PyVal.int 2 } =
      (.ok (json_response 201 [("item", itemToJVal (sanitize_item
          [("exercise_id", AttrVal.s "a"), ("id", AttrVal.s "a"),
           ("name", AttrVal.s "n"), ("instruction", AttrVal.s "i"),
           ("sets", AttrVal.n 2)]))]),
       [[("exercise_id", AttrVal.s "a"), ("id", AttrVal.s "a"),
         ("name", AttrVal.s "n"), ("instruction", AttrVal.s "i"),
         ("sets", AttrVal.n 2)]])) ∧
    (create_exercise
        [[("exercise_id", AttrVal.s "a"), ("id", AttrVal.s "a"),
          ("name", AttrVal.s "n"), ("instruction", AttrVal.s "i"),
          ("sets", AttrVal.n 2)]]
        { id := PyVal.str "a", name := PyVal.str "n2",
          instruction := PyVal.str "i2", sets := PyVal.int 4 } =
      (.http 409 "Es existiert bereits eine Übung mit dieser ID",
       [[("exercise_id", AttrVal.s "a"), ("id", AttrVal.s "a"),
         ("name", AttrVal.s "n"), ("instruction", AttrVal.s "i"),
         ("sets", AttrVal.n 2)]])) := by
  have h := claim_c6_create_conflict []
    { id := PyVal.str "a", name := PyVal.str "n",
      instruction := PyVal.str "i", sets := PyVal.int 2 }
    { id := PyVal.str "a", name := PyVal.str "n2",
      instruction := PyVal.str "i2", sets := PyVal.int 4 }
    [("exercise_id", AttrVal.s "a"), ("id", AttrVal.s "a"),
     ("name", AttrVal.s "n"), ("instruction", AttrVal.s "i"),
     ("sets", AttrVal.n 2)]
    [("exercise_id", AttrVal.s "a"), ("id", AttrVal.s "a"),
     ("name", AttrVal.s "n2"), ("instruction", AttrVal.s "i2"),
     ("sets", AttrVal.n 4)]
    (by decide) (by decide) (by decide) (by decide)
  exact ⟨h.1, h.2.1⟩

/-- C5: the progress listing honours the `limit` contract — absent/empty
limit defaults to 250; a value that is not a positive integer is a 400; the
effective limit is capped at 500 (and never exceeds 500 on any successful
parse); every internal scan requests a page size between 1 and 100; no scan
is issued once the limit is met; the loop stops at the first page without a
continuation key; and the served items are the scan results sorted by
`completed_at` descending, truncated to at most `limit` entries. -/
theorem claim_c5_progress_listing :
    (parse_limit none = .ok 250) ∧
    (∀ qsp, ((qsp.getD []).find? (fun kv => kv.1 = "limit")) = none →
      parse_limit qsp = .ok 250) ∧
    (∀ qsp kv, ((qsp.getD []).find? (fun kv => kv.1 = "limit")) = some kv →
      kv.2 ≠ "" → pyInt kv.2 = none →
      parse_limit qsp = .http 400 "'limit' muss eine Ganzzahl sein") ∧
    (∀ qsp kv l, ((qsp.getD []).find? (fun kv => kv.1 = "limit")) = some kv →
      kv.2 ≠ "" → pyInt kv.2 = some l → l ≤ 0 →
      parse_limit qsp = .http 400 "'limit' muss größer als 0 sein") ∧
    (∀ qsp kv l, ((qsp.getD []).find? (fun kv => kv.1 = "limit")) = some kv →
      kv.2 ≠ "" → pyInt kv.2 = some l → 0 < l →
      parse_limit qsp = .ok (min l.toNat 500)) ∧
    (∀ qsp limit, parse_limit qsp = .ok limit → limit ≤ 500) ∧
    (∀ limit resps acc, ∀ n ∈ (list_loop limit resps acc).2, 1 ≤ n ∧ n ≤ 100) ∧
    (∀ limit resps acc, limit ≤ acc.length → list_loop limit resps acc = (.ok acc, [])) ∧
    (∀ limit acc resps₁ pg rest, pg.lastEvaluatedKey = none →
      (list_loop limit (resps₁ ++ ScanResp.page pg :: rest) acc).2.length ≤
        resps₁.length + 1) ∧
    (∀ resps qsp limit items, parse_limit qsp = .ok limit →
      (list_loop limit resps []).1 = .ok items →
      list_progress_entries resps qsp =
        .ok (json_response 200 [("items", JVal.arr
          (((pySort (fun a b => pyStrLe (completedKey b) (completedKey a))
              items).take limit).map
            itemToJVal))]) ∧
      List.Pairwise (fun a b => completedKey b ≤ completedKey a)
        ((pySort (fun a b => pyStrLe (completedKey b) (completedKey a))
          items).take limit) ∧
      ((pySort (fun a b => pyStrLe (completedKey b) (completedKey a))
          items).take limit).length ≤
        limit) := by
  have hsizes : ∀ (limit : Nat) (resps : List ScanResp) (acc : List Item),
      ∀ n ∈ (list_loop limit resps acc).2, 1 ≤ n ∧ n ≤ 100 := by
    intro limit resps
    induction resps with
    | nil =>
      intro acc n hn
      simp [list_loop] at hn
    | cons r rest ih =>
      intro acc n hn
      rw [list_loop] at hn
      by_cases hguard : limit ≤ acc.length
      · rw [if_pos hguard] at hn
        simp at hn
      · rw [if_neg hguard] at hn
        have hs1 : 1 ≤ max 1 (min (limit - acc.length) 100) := le_max_left _ _
        have hs2 : max 1 (min (limit - acc.length) 100) ≤ 100 :=
          max_le (by omega) (min_le_right _ _)
        rcases r with pg | _
        · rcases hkey : pg.lastEvaluatedKey with _ | k
          · simp only [hkey] at hn
            simp at hn
            subst hn
            exact ⟨hs1, hs2⟩
          · simp only [hkey] at hn
            simp at hn
            rcases hn with hn | hn
            · subst hn
              exact ⟨hs1, hs2⟩
            · exact ih _ n hn
        · simp at hn
          subst hn
          exact ⟨hs1, hs2⟩
  have hstop : ∀ (limit : Nat) (resps : List ScanResp) (acc : List Item),
      limit ≤ acc.length → list_loop limit resps acc = (.ok acc, []) := by
    intro limit resps acc h
    cases resps with
    | nil => rfl
    | cons r rest => rw [list_loop, if_pos h]
  refine ⟨by decide, ?_, ?_, ?_, ?_, ?_, hsizes, hstop, ?_, ?_⟩
  · intro qsp hfind
    simp [parse_limit, hfind, DEFAULT_LIST_LIMIT]
  · intro qsp kv hfind hne hint
    simp [parse_limit, hfind, hne, hint]
  · intro qsp kv l hfind hne hint hle
    simp [parse_limit, hfind, hne, hint, hle]
  · intro qsp kv l hfind hne hint hpos
    simp [parse_limit, hfind, hne, hint, MAX_LIST_LIMIT]
    omega
  · intro qsp limit h
    rcases hfind : ((qsp.getD []).find? (fun kv => kv.1 = "limit")) with _ | kv
    · simp [parse_limit, hfind, DEFAULT_LIST_LIMIT] at h
      omega
    · by_cases hne : kv.2 = ""
      · simp [parse_limit, hfind, hne, DEFAULT_LIST_LIMIT] at h
        omega
      · rcases hint : pyInt kv.2 with _ | l
        · simp [parse_limit, hfind, hne, hint] at h
        · by_cases hle : l ≤ 0
          · simp [parse_limit, hfind, hne, hint, hle] at h
          · simp [parse_limit, hfind, hne, hint, hle, MAX_LIST_LIMIT] at h
            omega
  · intro limit acc resps₁ pg rest hkey
    induction resps₁ generalizing acc with
    | nil =>
      by_cases hguard : limit ≤ acc.length
      · rw [List.nil_append, list_loop, if_pos hguard]
        simp
      · rw [List.nil_append, list_loop, if_neg hguard]
        simp only [hkey]
        simp
    | cons r resps₁' ih =>
      by_cases hguard : limit ≤ acc.length
      · rw [List.cons_append, list_loop, if_pos hguard]
        simp
      · rw [List.cons_append, list_loop, if_neg hguard]
        rcases r with pg' | _
        · rcases hkey' : pg'.lastEvaluatedKey with _ | k
          · simp only [hkey']
            simp
          · simp only [hkey']
            have hih := ih (acc ++ pg'.items)
            simp
            omega
        · simp
  · intro resps qsp limit items hparse hitems
    have htrans : ∀ a b c : Item,
        pyStrLe (completedKey b) (completedKey a) = true →
        pyStrLe (completedKey c) (completedKey b) = true →
        pyStrLe (completedKey c) (completedKey a) = true := by
      intro a b c hab hbc
      rw [pyStrLe_iff] at *
      exact le_trans hbc hab
    have htotal : ∀ a b : Item,
        (pyStrLe (completedKey b) (completedKey a) ||
         pyStrLe (completedKey a) (completedKey b)) = true := by
      intro a b
      rcases le_total (completedKey b) (completedKey a) with h | h <;>
        simp [pyStrLe_iff, h]
    have hpair := pySort_sorted htrans htotal items
    refine ⟨?_, ?_, ?_⟩
    · unfold list_progress_entries
      rw [hparse, pyBind_ok, hitems, pyBind_ok]
      rfl
    · exact ((hpair.sublist (List.take_sublist _ _)).imp
        (fun h => (pyStrLe_iff _ _).mp h))
    · exact List.length_take_le _ _

/-- Witness for C5: a non-numeric limit is a 400, limit 9999 is capped to
500, and a concrete one-page listing is served sorted by `completed_at`
descending. -/
theorem claim_c5_progress_listing_witness :
    parse_limit (some [("limit", "abc")]) =
      .http 400 "'limit' muss eine Ganzzahl sein" ∧
    parse_limit (some [("limit", "9999")]) = .ok 500 ∧
    list_progress_entries
        [ScanResp.page
          ⟨[[("completed_at", AttrVal.s "2024-01-01T00:00:00Z")],
            [("completed_at", AttrVal.s "2024-02-01T00:00:00Z")]], none⟩] none =
      .ok (json_response 200 [("items", JVal.arr
        [itemToJVal [("completed_at", AttrVal.s "2024-02-01T00:00:00Z")],
         itemToJVal [("completed_at", AttrVal.s "2024-01-01T00:00:00Z")]])]) := by
  refine ⟨?_, ?_, ?_⟩
  · exact claim_c5_progress_listing.2.2.1 (some [("limit", "abc")]) ("limit", "abc")
      (by decide) (by decide) (by decide)
  · exact claim_c5_progress_listing.2.2.2.2.1 (some [("limit", "9999")])
      ("limit", "9999") 9999 (by decide) (by decide) (by decide) (by decide)
  · exact (claim_c5_progress_listing.2.2.2.2.2.2.2.2.2
      [ScanResp.page
        ⟨[[("completed_at", AttrVal.s "2024-01-01T00:00:00Z")],
          [("completed_at", AttrVal.s "2024-02-01T00:00:00Z")]], none⟩] none 250
      [[("completed_at", AttrVal.s "2024-01-01T00:00:00Z")],
       [("completed_at", AttrVal.s "2024-02-01T00:00:00Z")]]
      (by decide) (by decide)).1

/-- C8 (code evaluation): the progress handler has no DELETE branch — a
DELETE request addressed by (clientId, completedAt) falls through the
method dispatch to the 405 response, for every store/clock/decoder
environment.  The repository's own test
(`test_delete_progress_accepts_query_parameters`) expects 200 and a
conditional delete call instead. -/
theorem claim_c8_delete_returns_405 (now : PyDatetime) (putRaises : Bool)
    (resps : List ScanResp) (b64 : String → Option String)
    (jsonLoads : String → Option JVal) (qsp : Option (List (String × String))) :
    progress_lambda_handler now putRaises resps b64 jsonLoads
      { method := "DELETE", queryStringParameters := qsp } =
      json_response 405 [("error", JVal.str "Methode wird nicht unterstützt")] := by
  rfl

/-- C9 counterexample: a store failure in the progress listing's scan is NOT
translated to a 502 — the scan is not wrapped in a try/except, the exception
reaches the generic wrapper, and the caller gets a 500. -/
theorem claim_c9_counterexample :
    progress_lambda_handler ⟨2024, 1, 1, 0, 0, 0, 0, some 0⟩ false [ScanResp.err]
        (fun _ => none) (fun _ => none) { method := "GET" } =
      json_response 500 [("error", JVal.str "Interner Serverfehler")] ∧
    (json_response 500 [("error", JVal.str "Interner Serverfehler")]).statusCode ≠ 502 := by
  constructor
  · rfl
  · decide

/-- C9 (amended): every handler operation that wraps its store call in a
`try/except` translates a failure into a 502 with a fixed generic message —
exercise listing, get, create, update and delete, and the progress put (the
speech path's 502 is covered by the C2 theorem); the progress listing's scan
is not wrapped, so its failure surfaces as a 500 with the fixed generic
internal-error message.  In every case the response body is a constant
independent of the failure. -/
theorem claim_c9_store_failures (now : PyDatetime) (p : ProgressPayload)
    (item : Item) (store : List Item) (pe : ExercisePayload) (item' : Item)
    (pid eid : String) (qsp : Option (List (String × String))) (limit : Nat)
    (rest : List ScanResp) (b64 : String → Option String)
    (jsonLoads : String → Option JVal) :
    (with_error_handling (list_exercises none) =
      json_response 502 [("error", JVal.str "Übungen konnten nicht geladen werden")]) ∧
    (with_error_handling (get_exercise none) =
      json_response 502 [("error", JVal.str "Übung konnte nicht geladen werden")]) ∧
    (build_item pe = .ok item' →
      with_error_handling (create_exercise_raising store true pe).1 =
        json_response 502 [("error", JVal.str "Übung konnte nicht gespeichert werden")]) ∧
    (build_item pe = .ok item' →
      with_error_handling (update_exercise_raising store true pid pe).1 =
        json_response 502 [("error", JVal.str "Übung konnte nicht aktualisiert werden")]) ∧
    (is_test_exercise eid = false →
      with_error_handling (delete_exercise_raising store true eid).1 =
        json_response 502 [("error", JVal.str "Übung konnte nicht gelöscht werden")]) ∧
    (build_progress_item now p = .ok item →
      with_error_handling (store_progress_entry now true p).1 =
        json_response 502
          [("error", JVal.str "Übungsfortschritt konnte nicht gespeichert werden")]) ∧
    (parse_limit qsp = .ok limit → 0 < limit →
      progress_lambda_handler now false (ScanResp.err :: rest) b64 jsonLoads
        { method := "GET", queryStringParameters := qsp } =
        json_response 500 [("error", JVal.str "Interner Serverfehler")]) := by
  refine ⟨rfl, rfl, ?_, ?_, ?_, ?_, ?_⟩
  · intro hbuild
    unfold create_exercise_raising
    rw [hbuild]
    rfl
  · intro hbuild
    unfold update_exercise_raising
    rw [hbuild]
    rfl
  · intro htest
    unfold delete_exercise_raising
    rw [if_neg (by simp [htest])]
    rfl
  · intro hbuild
    unfold store_progress_entry
    rw [hbuild]
    rfl
  · intro hparse hpos
    unfold progress_lambda_handler progress_handler_core
    rw [if_neg (show ¬ pyUpper "GET" = "OPTIONS" by decide),
        if_pos (show pyUpper "GET" = "GET" by decide)]
    unfold list_progress_entries
    rw [hparse, pyBind_ok, list_loop, if_neg (by simp; omega)]
    rfl

/-- Witness for C9's amended statement: the exercise create, update and
delete store failures, the progress put failure, and the unwrapped scan
failure at concrete inputs. -/
theorem claim_c9_store_failures_witness :
    (with_error_handling
        (create_exercise_raising [] true
          { id := .str "kniebeuge", name := .str "Kniebeuge",
            instruction := .str "Langsam beugen", sets := .int 3 }).1 =
      json_response 502 [("error", JVal.str "Übung konnte nicht gespeichert werden")]) ∧
    (with_error_handling
        (update_exercise_raising [] true "kniebeuge"
          { id := .str "kniebeuge", name := .str "Kniebeuge",
            instruction := .str "Langsam beugen", sets := .int 3 }).1 =
      json_response 502 [("error", JVal.str "Übung konnte nicht aktualisiert werden")]) ∧
    (with_error_handling (delete_exercise_raising [] true "kniebeuge").1 =
      json_response 502 [("error", JVal.str "Übung konnte nicht gelöscht werden")]) ∧
    (with_error_handling
        (store_progress_entry ⟨2024, 1, 1, 0, 0, 0, 0, some 0⟩ true
          { clientId := PyVal.str "u", exerciseId := PyVal.str "e",
            totalSets := PyVal.int 1, setsCompleted := PyVal.int 1 }).1 =
      json_response 502
        [("error", JVal.str "Übungsfortschritt konnte nicht gespeichert werden")]) ∧
    (progress_lambda_handler ⟨2024, 1, 1, 0, 0, 0, 0, some 0⟩ false [ScanResp.err]
        (fun _ => none) (fun _ => none) { method := "GET" } =
      json_response 500 [("error", JVal.str "Interner Serverfehler")]) := by
  have h := claim_c9_store_failures ⟨2024, 1, 1, 0, 0, 0, 0, some 0⟩
    { clientId := PyVal.str "u", exerciseId := PyVal.str "e",
      totalSets := PyVal.int 1, setsCompleted := PyVal.int 1 }
    [("client_id", AttrVal.s "u"),
     ("completed_at", AttrVal.s (utc_now_iso ⟨2024, 1, 1, 0, 0, 0, 0, some 0⟩)),
     ("exercise_id", AttrVal.s "e"), ("total_sets", AttrVal.n 1),
     ("sets_completed", AttrVal.n 1)]
    []
    { id := .str "kniebeuge", name := .str "Kniebeuge",
      instruction := .str "Langsam beugen", sets := .int 3 }
    [("exercise_id", AttrVal.s "kniebeuge"), ("id", AttrVal.s "kniebeuge"),
     ("name", AttrVal.s "Kniebeuge"), ("instruction", AttrVal.s "Langsam beugen"),
     ("sets", AttrVal.n 3)]
    "kniebeuge" "kniebeuge" none 250 [] (fun _ => none) (fun _ => none)
  exact ⟨h.2.2.1 (by decide), h.2.2.2.1 (by decide), h.2.2.2.2.1 (by decide),
    h.2.2.2.2.2.1 (by decide), h.2.2.2.2.2.2 (by decide) (by decide)⟩

/-- C10: when `isBase64Encoded` is set and the non-empty body is not valid
base64 (or not UTF-8) — modelled by the decode oracle raising — the parser's
exception is not an `HttpError`; it escapes to the wrapper, which answers
500 (generic internal error), not 400.  Shown for any continuation after the
parse, and for the concrete progress POST path. -/
theorem claim_c10_bad_base64_is_500 (b64 : String → Option String)
    (jsonLoads : String → Option JVal) (k : List (String × JVal) → PyOutcome HttpResponse)
    (body : String) (now : PyDatetime) (putRaises : Bool) (resps : List ScanResp)
    (hne : body ≠ "") (hb64 : b64 body = none) :
    parse_json_body b64 jsonLoads (some body) true = PyOutcome.uncaught ∧
    with_error_handling (parse_json_body b64 jsonLoads (some body) true >>= k) =
      json_response 500 [("error", JVal.str "Interner Serverfehler")] ∧
    progress_lambda_handler now putRaises resps b64 jsonLoads
      { method := "POST", body := some body, isBase64Encoded := true } =
      json_response 500 [("error", JVal.str "Interner Serverfehler")] ∧
    (json_response 500 [("error", JVal.str "Interner Serverfehler")]).statusCode ≠ 400 := by
  have hparse : parse_json_body b64 jsonLoads (some body) true = PyOutcome.uncaught := by
    unfold parse_json_body
    rw [if_neg hne, hb64]
    rfl
  refine ⟨hparse, ?_, ?_, by decide⟩
  · rw [hparse, pyBind_uncaught]
    rfl
  · unfold progress_lambda_handler progress_handler_core
    rw [if_neg (show ¬ pyUpper "POST" = "OPTIONS" by decide),
        if_neg (show ¬ pyUpper "POST" = "GET" by decide),
        if_pos (show pyUpper "POST" = "POST" by decide)]
    rw [hparse, pyBind_uncaught]
    rfl

/-- Witness for C10: concrete body "A" with a decoder that raises. -/
theorem claim_c10_bad_base64_is_500_witness :
    parse_json_body (fun _ => none) (fun _ => none) (some "A") true =
      PyOutcome.uncaught ∧
    progress_lambda_handler ⟨2024, 1, 1, 0, 0, 0, 0, some 0⟩ false []
        (fun _ => none) (fun _ => none)
        { method := "POST", body := some "A", isBase64Encoded := true } =
      json_response 500 [("error", JVal.str "Interner Serverfehler")] := by
  have h := claim_c10_bad_base64_is_500 (fun _ => none) (fun _ => none)
    (fun _ => PyOutcome.ok (json_response 200 [])) "A"
    ⟨2024, 1, 1, 0, 0, 0, 0, some 0⟩ false [] (by decide) rfl
  exact ⟨h.1, h.2.2.1⟩

/-- `digitOf` produces an ASCII digit. -/
theorem digitOf_range (n : Nat) :
    48 ≤ (digitOf n).toNat ∧ (digitOf n).toNat ≤ 57 := by
  have h : n % 10 = 0 ∨ n % 10 = 1 ∨ n % 10 = 2 ∨ n % 10 = 3 ∨ n % 10 = 4 ∨
      n % 10 = 5 ∨ n % 10 = 6 ∨ n % 10 = 7 ∨ n % 10 = 8 ∨ n % 10 = 9 := by omega
  unfold digitOf
  rcases h with h | h | h | h | h | h | h | h | h | h <;> rw [h] <;> decide

/-- Reading back the digit character of `n` gives `n % 10`. -/
theorem readDigitChar_digitOf (n : Nat) :
    readDigitChar (digitOf n) = some (n % 10) := by
  have h : n % 10 = 0 ∨ n % 10 = 1 ∨ n % 10 = 2 ∨ n % 10 = 3 ∨ n % 10 = 4 ∨
      n % 10 = 5 ∨ n % 10 = 6 ∨ n % 10 = 7 ∨ n % 10 = 8 ∨ n % 10 = 9 := by omega
  unfold digitOf
  rcases h with h | h | h | h | h | h | h | h | h | h <;> rw [h] <;> decide

/-- Every character of a zero-padded number is an ASCII digit. -/
theorem mem_padN (k n : Nat) (c : Char) (hc : c ∈ padN k n) :
    48 ≤ c.toNat ∧ c.toNat ≤ 57 := by
  induction k generalizing n with
  | zero => simp [padN] at hc
  | succ k ih =>
    rw [padN] at hc
    rcases List.mem_append.mp hc with h | h
    · exact ih _ h
    · rw [List.mem_singleton] at h
      subst h
      exact digitOf_range n

/-- Reading `k + j` digits from `padN k m` followed by `r` consumes exactly
the pad and continues with the accumulated value. -/
theorem readNatGo_padN (k : Nat) : ∀ (j m acc : Nat) (r : List Char), m < 10 ^ k →
    readNatGo (k + j) acc (padN k m ++ r) = readNatGo j (acc * 10 ^ k + m) r := by
  induction k with
  | zero =>
    intro j m acc r hm
    simp only [padN, List.nil_append, Nat.zero_add, pow_zero]
    rw [show acc * 1 + m = acc by omega]
  | succ k ih =>
    intro j m acc r hm
    rw [padN, List.append_assoc, List.singleton_append]
    rw [show k + 1 + j = k + (j + 1) by omega]
    rw [ih (j + 1) (m / 10) acc (digitOf m :: r)
      ((Nat.div_lt_iff_lt_mul (by norm_num)).mpr (by rw [← pow_succ]; exact hm))]
    rw [readNatGo]
    rw [readDigitChar_digitOf]
    show readNatGo j ((acc * 10 ^ k + m / 10) * 10 + m % 10) r =
      readNatGo j (acc * 10 ^ (k + 1) + m) r
    congr 1
    rw [show (acc * 10 ^ k + m / 10) * 10 + m % 10 =
        acc * (10 ^ k * 10) + (m / 10 * 10 + m % 10) by ring]
    rw [← pow_succ]
    omega

/-- Reading exactly `k` digits from a `k`-digit pad recovers the number. -/
theorem readFixedNat_padN (k m : Nat) (r : List Char) (hm : m < 10 ^ k) :
    readFixedNat k (padN k m ++ r) = some (m, r) := by
  unfold readFixedNat
  have h := readNatGo_padN k 0 m 0 r hm
  rw [Nat.add_zero] at h
  rw [h]
  simp [readNatGo]

/-- The greedy fraction reader consumes a full `k`-digit pad. -/
theorem readFracGo_padN (k : Nat) : ∀ (j m acc cnt : Nat) (r : List Char), m < 10 ^ k →
    readFracGo (k + j) acc cnt (padN k m ++ r) =
      readFracGo j (acc * 10 ^ k + m) (cnt + k) r := by
  induction k with
  | zero =>
    intro j m acc cnt r hm
    simp only [padN, List.nil_append, Nat.zero_add, pow_zero, Nat.add_zero]
    rw [show acc * 1 + m = acc by omega]
  | succ k ih =>
    intro j m acc cnt r hm
    rw [padN, List.append_assoc, List.singleton_append]
    rw [show k + 1 + j = k + (j + 1) by omega]
    rw [ih (j + 1) (m / 10) acc cnt (digitOf m :: r)
      ((Nat.div_lt_iff_lt_mul (by norm_num)).mpr (by rw [← pow_succ]; exact hm))]
    rw [readFracGo]
    rw [readDigitChar_digitOf]
    show readFracGo j ((acc * 10 ^ k + m / 10) * 10 + m % 10) (cnt + k + 1) r =
      readFracGo j (acc * 10 ^ (k + 1) + m) (cnt + (k + 1)) r
    rw [show (acc * 10 ^ k + m / 10) * 10 + m % 10 =
        acc * (10 ^ k * 10) + (m / 10 * 10 + m % 10) by ring]
    rw [← pow_succ]
    congr 1
    omega

/-- A list is a Boolean prefix of itself followed by anything. -/
theorem isPfxL_append_self : ∀ (xs ys : List Char), isPfxL xs (xs ++ ys) = true
  | [], _ => rfl
  | x :: xs, ys => by
    rw [List.cons_append, isPfxL]
    simp [isPfxL_append_self xs ys]

/-- The replace scan walks over a needle-free prefix untouched. -/
theorem replaceGo_skip (n₀ : Char) (ntail repl : List Char) :
    ∀ (pre rest : List Char) (fuel : Nat), n₀ ∉ pre →
      (pre ++ rest).length ≤ fuel →
      replaceGo n₀ ntail repl fuel (pre ++ rest) =
        pre ++ replaceGo n₀ ntail repl (fuel - pre.length) rest
  | [], rest, fuel, _, _ => by simp
  | c :: pre, rest, fuel, hnot, hfuel => by
    have hc : c ≠ n₀ := fun h => hnot (h ▸ List.mem_cons_self c pre)
    rcases fuel with _ | f
    · simp at hfuel
    · rw [List.cons_append, replaceGo, if_neg (fun hand => hc hand.1)]
      rw [replaceGo_skip n₀ ntail repl pre rest f
        (fun h => hnot (List.mem_cons_of_mem c h))
        (by simp at hfuel ⊢; omega)]
      simp only [List.cons_append, List.length_cons]
      rw [show f + 1 - (pre.length + 1) = f - pre.length by omega]

/-- Replacing in a needle-free list is the identity. -/
theorem replaceGo_none (n₀ : Char) (ntail repl : List Char) :
    ∀ (cs : List Char) (fuel : Nat), n₀ ∉ cs → cs.length ≤ fuel →
      replaceGo n₀ ntail repl fuel cs = cs
  | [], fuel, _, _ => by cases fuel <;> rfl
  | c :: cs, fuel, hnot, hfuel => by
    have hc : c ≠ n₀ := fun h => hnot (h ▸ List.mem_cons_self c cs)
    rcases fuel with _ | f
    · simp at hfuel
    · rw [replaceGo, if_neg (fun hand => hc hand.1)]
      rw [replaceGo_none n₀ ntail repl cs f
        (fun h => hnot (List.mem_cons_of_mem c h))
        (by simp at hfuel ⊢; omega)]

/-- The replace scan turns a trailing needle into the replacement. -/
theorem replaceGo_end (n₀ : Char) (ntail repl : List Char) (fuel : Nat)
    (hfuel : 1 ≤ fuel) :
    replaceGo n₀ ntail repl fuel (n₀ :: ntail) = repl := by
  rcases fuel with _ | f
  · omega
  · rw [replaceGo, if_pos ⟨rfl, by
      have := isPfxL_append_self ntail []
      rwa [List.append_nil] at this⟩]
    rw [List.drop_length]
    simp [replaceGo]

/-- Replacing a needle that occurs exactly once, at the very end. -/
theorem pyReplace_append_needle (body : List Char) (needle repl : String)
    (n₀ : Char) (nt : List Char) (hnd : needle.data = n₀ :: nt)
    (hnot : n₀ ∉ body) :
    pyReplace ⟨body ++ needle.data⟩ needle repl = ⟨body ++ repl.data⟩ := by
  unfold pyReplace
  rw [hnd]
  show (⟨replaceGo n₀ nt repl.data (body ++ n₀ :: nt).length (body ++ n₀ :: nt)⟩ : String) = _
  rw [replaceGo_skip n₀ nt repl.data body (n₀ :: nt) _ hnot le_rfl]
  rw [replaceGo_end n₀ nt repl.data _
    (by simp only [List.length_append, List.length_cons]; omega)]

/-- Replacing when the needle's head never occurs is the identity. -/
theorem pyReplace_no_occurrence (l : List Char) (needle repl : String)
    (n₀ : Char) (nt : List Char) (hnd : needle.data = n₀ :: nt) (hnot : n₀ ∉ l) :
    pyReplace ⟨l⟩ needle repl = ⟨l⟩ := by
  unfold pyReplace
  rw [hnd]
  show (⟨replaceGo n₀ nt repl.data l.length l⟩ : String) = _
  rw [replaceGo_none n₀ nt repl.data l l.length hnot le_rfl]

/-- Consuming the 4-digit year. -/
theorem pyFromIsoformat_pad (y : Nat) (r : List Char) (hy : y < 10000) :
    pyFromIsoformat ⟨padN 4 y ++ r⟩ = parseMonth y r := by
  show (match readFixedNat 4 (padN 4 y ++ r) with
        | none => none
        | some (y, cs₁) => parseMonth y cs₁) = parseMonth y r
  rw [readFixedNat_padN 4 y r (by norm_num; omega)]

/-- Consuming `-MM`. -/
theorem parseMonth_pad (y mo : Nat) (r : List Char) (hmo : mo < 100) :
    parseMonth y ('-' :: (padN 2 mo ++ r)) = parseDay y mo r := by
  show (match readFixedNat 2 (padN 2 mo ++ r) with
        | none => none
        | some (mo, cs₃) => parseDay y mo cs₃) = parseDay y mo r
  rw [readFixedNat_padN 2 mo r (by norm_num; omega)]

/-- Consuming `-DD` followed by a separator and a time part. -/
theorem parseDay_pad (y mo dd : Nat) (c : Char) (tcs : List Char) (hdd : dd < 100) :
    parseDay y mo ('-' :: (padN 2 dd ++ (c :: tcs))) = parseTime y mo dd tcs := by
  show (match readFixedNat 2 (padN 2 dd ++ (c :: tcs)) with
        | none => none
        | some (dd, cs₅) =>
          match cs₅ with
          | [] => finishDt y mo dd 0 0 0 0 none
          | _ :: timeCs => parseTime y mo dd timeCs) = parseTime y mo dd tcs
  rw [readFixedNat_padN 2 dd _ (by norm_num; omega)]

/-- Consuming the 2-digit hour. -/
theorem parseTime_pad (y mo dd h : Nat) (r : List Char) (hh : h < 100) :
    parseTime y mo dd (padN 2 h ++ r) = parseMinute y mo dd h r := by
  unfold parseTime
  rw [readFixedNat_padN 2 h r (by norm_num; omega)]

/-- Consuming `:MM`. -/
theorem parseMinute_pad (y mo dd h mi : Nat) (r : List Char) (hmi : mi < 100) :
    parseMinute y mo dd h (':' :: (padN 2 mi ++ r)) = parseSecond y mo dd h mi r := by
  show (match readFixedNat 2 (padN 2 mi ++ r) with
        | none => none
        | some (mi, rest) => parseSecond y mo dd h mi rest) = parseSecond y mo dd h mi r
  rw [readFixedNat_padN 2 mi r (by norm_num; omega)]

/-- Consuming `:SS`. -/
theorem parseSecond_pad (y mo dd h mi s : Nat) (r : List Char) (hs : s < 100) :
    parseSecond y mo dd h mi (':' :: (padN 2 s ++ r)) = parseFrac y mo dd h mi s r := by
  show (match readFixedNat 2 (padN 2 s ++ r) with
        | none => none
        | some (s, rest) => parseFrac y mo dd h mi s rest) = parseFrac y mo dd h mi s r
  rw [readFixedNat_padN 2 s r (by norm_num; omega)]

/-- No fractional part: a following `+` goes straight to the offset. -/
theorem parseFrac_plus (y mo dd h mi s : Nat) (r : List Char) :
    parseFrac y mo dd h mi s ('+' :: r) = parseOffset y mo dd h mi s 0 ('+' :: r) := rfl

/-- Consuming a 6-digit fractional part. -/
theorem parseFrac_pad (y mo dd h mi s us : Nat) (r : List Char) (hus : us < 1000000) :
    parseFrac y mo dd h mi s ('.' :: (padN 6 us ++ r)) =
      parseOffset y mo dd h mi s us r := by
  have h6 := readFracGo_padN 6 0 us 0 0 r (by norm_num; omega)
  rw [Nat.add_zero] at h6
  show (if (readFracGo 6 0 0 (padN 6 us ++ r)).2.1 = 0 then none
        else
          parseOffset y mo dd h mi s
            ((readFracGo 6 0 0 (padN 6 us ++ r)).1 *
              10 ^ (6 - (readFracGo 6 0 0 (padN 6 us ++ r)).2.1))
            (readFracGo 6 0 0 (padN 6 us ++ r)).2.2) =
      parseOffset y mo dd h mi s us r
  rw [h6]
  norm_num [readFracGo]

/-- The `+00:00` suffix parses to offset zero. -/
theorem parseOffset_utc (y mo dd h mi s us : Nat) :
    parseOffset y mo dd h mi s us ('+' :: '0' :: '0' :: ':' :: '0' :: '0' :: []) =
      finishDt y mo dd h mi s us (some 0) := rfl

/-- Every month has at least one day. -/
theorem daysInMonth_pos (y m : Nat) : 1 ≤ daysInMonth y m := by
  unfold daysInMonth
  split_ifs <;> omega

/-- Every month has at most 31 days. -/
theorem daysInMonth_le31 (y m : Nat) : daysInMonth y m ≤ 31 := by
  unfold daysInMonth
  split_ifs <;> omega

/-- December always has 31 days. -/
theorem daysInMonth_12 (y : Nat) : daysInMonth y 12 = 31 := rfl

/-- A datetime produced by `finishDt` satisfies the constructor ranges. -/
theorem finishDt_valid_of {y mo dd h mi s us : Nat} {off : Option Int} {d : PyDatetime}
    (hh : finishDt y mo dd h mi s us off = some d) : isValidDatetime d = true := by
  simp only [finishDt] at hh
  split at hh
  · next hc =>
    injection hh with hh
    subst hh
    exact hc.1
  · exact absurd hh (by simp)

/-- `finishDt` succeeds on a valid datetime with zero offset. -/
theorem finishDt_some (y mo dd h mi s us : Nat)
    (hv : isValidDatetime ⟨y, mo, dd, h, mi, s, us, some 0⟩ = true) :
    finishDt y mo dd h mi s us (some 0) = some ⟨y, mo, dd, h, mi, s, us, some 0⟩ := by
  simp only [finishDt]
  rw [if_pos]
  refine ⟨hv, ?_⟩
  intro o ho
  simp only [Option.mem_def, Option.some.injEq] at ho
  subst ho
  decide

/-- The offset parser only returns valid datetimes. -/
theorem parseOffsetMag_valid {y mo dd h mi s us : Nat} {neg : Bool} {cs : List Char}
    {d : PyDatetime} (hh : parseOffsetMag y mo dd h mi s us neg cs = some d) :
    isValidDatetime d = true := by
  unfold parseOffsetMag at hh
  repeat' split at hh
  all_goals first
    | exact finishDt_valid_of hh
    | exact absurd hh (by simp)

/-- `parseOffset` only returns valid datetimes. -/
theorem parseOffset_valid {y mo dd h mi s us : Nat} {cs : List Char}
    {d : PyDatetime} (hh : parseOffset y mo dd h mi s us cs = some d) :
    isValidDatetime d = true := by
  unfold parseOffset at hh
  repeat' split at hh
  all_goals first
    | exact finishDt_valid_of hh
    | exact parseOffsetMag_valid hh
    | exact absurd hh (by simp)

/-- `parseFrac` only returns valid datetimes. -/
theorem parseFrac_valid {y mo dd h mi s : Nat} {cs : List Char}
    {d : PyDatetime} (hh : parseFrac y mo dd h mi s cs = some d) :
    isValidDatetime d = true := by
  unfold parseFrac at hh
  repeat' split at hh
  all_goals first
    | exact parseOffset_valid hh
    | exact absurd hh (by simp)

/-- `parseSecond` only returns valid datetimes. -/
theorem parseSecond_valid {y mo dd h mi : Nat} {cs : List Char}
    {d : PyDatetime} (hh : parseSecond y mo dd h mi cs = some d) :
    isValidDatetime d = true := by
  unfold parseSecond at hh
  repeat' split at hh
  all_goals first
    | exact parseFrac_valid hh
    | exact parseOffset_valid hh
    | exact absurd hh (by simp)

/-- `parseMinute` only returns valid datetimes. -/
theorem parseMinute_valid {y mo dd h : Nat} {cs : List Char}
    {d : PyDatetime} (hh : parseMinute y mo dd h cs = some d) :
    isValidDatetime d = true := by
  unfold parseMinute at hh
  repeat' split at hh
  all_goals first
    | exact parseSecond_valid hh
    | exact parseOffset_valid hh
    | exact absurd hh (by simp)

/-- `parseTime` only returns valid datetimes. -/
theorem parseTime_valid {y mo dd : Nat} {cs : List Char}
    {d : PyDatetime} (hh : parseTime y mo dd cs = some d) :
    isValidDatetime d = true := by
  unfold parseTime at hh
  repeat' split at hh
  all_goals first
    | exact parseMinute_valid hh
    | exact absurd hh (by simp)

/-- `parseDay` only returns valid datetimes. -/
theorem parseDay_valid {y mo : Nat} {cs : List Char}
    {d : PyDatetime} (hh : parseDay y mo cs = some d) :
    isValidDatetime d = true := by
  unfold parseDay at hh
  repeat' split at hh
  all_goals first
    | exact finishDt_valid_of hh
    | exact parseTime_valid hh
    | exact absurd hh (by simp)

/-- `parseMonth` only returns valid datetimes. -/
theorem parseMonth_valid {y : Nat} {cs : List Char}
    {d : PyDatetime} (hh : parseMonth y cs = some d) :
    isValidDatetime d = true := by
  unfold parseMonth at hh
  repeat' split at hh
  all_goals first
    | exact parseDay_valid hh
    | exact absurd hh (by simp)

/-- The isoformat parser only returns valid datetimes. -/
theorem pyFromIsoformat_valid {s : String} {d : PyDatetime}
    (hh : pyFromIsoformat s = some d) : isValidDatetime d = true := by
  unfold pyFromIsoformat at hh
  repeat' split at hh
  all_goals first
    | exact parseMonth_valid hh
    | exact absurd hh (by simp)

/-- Advancing a valid datetime by one minute stays valid. -/
theorem incMinute_valid {d e : PyDatetime} (hv : isValidDatetime d = true)
    (h : incMinute d = some e) : isValidDatetime e = true := by
  have p1 := daysInMonth_pos d.year (d.month + 1)
  have p2 := daysInMonth_pos (d.year + 1) 1
  unfold incMinute at h
  split_ifs at h with h1 h2 h3 h4 h5
  all_goals
    injection h with h
  all_goals
    subst h
  all_goals
    simp only [isValidDatetime, decide_eq_true_eq] at hv ⊢
  all_goals omega

/-- Moving a valid datetime back by one minute stays valid. -/
theorem decMinute_valid {d e : PyDatetime} (hv : isValidDatetime d = true)
    (h : decMinute d = some e) : isValidDatetime e = true := by
  have p1 := daysInMonth_pos d.year (d.month - 1)
  have p2 := daysInMonth_12 (d.year - 1)
  unfold decMinute at h
  split_ifs at h with h1 h2 h3 h4 h5
  all_goals
    injection h with h
  all_goals
    subst h
  all_goals
    simp only [isValidDatetime, decide_eq_true_eq] at hv ⊢
  all_goals omega

/-- Iterating a validity-preserving step preserves validity. -/
theorem iterStep_valid (step : PyDatetime → Option PyDatetime)
    (hstep : ∀ d e, isValidDatetime d = true → step d = some e → isValidDatetime e = true) :
    ∀ n d e, isValidDatetime d = true → iterStep step n d = some e →
      isValidDatetime e = true := by
  intro n
  induction n with
  | zero =>
    intro d e hv h
    injection h with h
    subst h
    exact hv
  | succ n ih =>
    intro d e hv h
    unfold iterStep at h
    rcases hs : step d with _ | d'
    · rw [hs] at h
      simp at h
    · rw [hs] at h
      exact ih d' e (hstep d d' hv hs) h

/-- Adding minutes preserves validity. -/
theorem addMinutes_valid {d e : PyDatetime} {n : Int} (hv : isValidDatetime d = true)
    (h : addMinutes d n = some e) : isValidDatetime e = true := by
  unfold addMinutes at h
  split_ifs at h
  · exact iterStep_valid incMinute (fun _ _ => incMinute_valid) _ d e hv h
  · exact iterStep_valid decMinute (fun _ _ => decMinute_valid) _ d e hv h

/-- Conversion to UTC preserves validity. -/
theorem astimezoneUtc_valid {d e : PyDatetime} (hv : isValidDatetime d = true)
    (h : astimezoneUtc d = some e) : isValidDatetime e = true := by
  unfold astimezoneUtc at h
  rcases ho : d.offsetMinutes with _ | off
  · rw [ho] at h
    injection h with h
    subst h
    exact hv
  · rw [ho] at h
    change Option.map (fun x => { x with offsetMinutes := some (0 : Int) })
      (addMinutes d (-off)) = some e at h
    rcases ha : addMinutes d (-off) with _ | e'
    · rw [ha] at h
      simp at h
    · rw [ha] at h
      simp only [Option.map_some', Option.some.injEq] at h
      subst h
      have hval := addMinutes_valid hv ha
      exact hval

/-- Conversion to UTC stamps offset zero. -/
theorem astimezoneUtc_offset {d e : PyDatetime} (h : astimezoneUtc d = some e) :
    e.offsetMinutes = some 0 := by
  unfold astimezoneUtc at h
  rcases ho : d.offsetMinutes with _ | off
  · rw [ho] at h
    injection h with h
    subst h
    rfl
  · rw [ho] at h
    change Option.map (fun x => { x with offsetMinutes := some (0 : Int) })
      (addMinutes d (-off)) = some e at h
    rcases ha : addMinutes d (-off) with _ | e'
    · rw [ha] at h
      simp at h
    · rw [ha] at h
      simp only [Option.map_some', Option.some.injEq] at h
      subst h
      rfl

/-- Converting an already-UTC datetime to UTC is the identity. -/
theorem astimezoneUtc_zero {d : PyDatetime} (h : d.offsetMinutes = some 0) :
    astimezoneUtc d = some d := by
  obtain ⟨y, mo, dd, hh, mi, s, us, off⟩ := d
  simp only at h
  subst h
  rfl

/-- Stripping a string with no whitespace at all is the identity. -/
theorem pyStrip_eq_self (s : String) (h : ∀ c ∈ s.data, pyIsSpace c = false) :
    pyStrip s = s := by
  rcases s with ⟨l⟩
  show (⟨((l.dropWhile pyIsSpace).reverse.dropWhile pyIsSpace).reverse⟩ : String) = ⟨l⟩
  rw [dropWhile_eq_self_of_all pyIsSpace l h]
  rw [dropWhile_eq_self_of_all pyIsSpace l.reverse
    (fun c hc => h c (List.mem_reverse.mp hc))]
  rw [List.reverse_reverse]

/-- A digit character is not Python whitespace. -/
theorem pyIsSpace_false_of_digit {c : Char} (h1 : 48 ≤ c.toNat) (h2 : c.toNat ≤ 57) :
    pyIsSpace c = false := by
  simp only [pyIsSpace, decide_eq_false_iff_not]
  push_neg
  refine ⟨?_, ?_, ?_, ?_, ?_, ?_⟩ <;>
    (rintro rfl; first | exact absurd h1 (by decide) | exact absurd h2 (by decide))

/-- Every character of the isoformat body is a digit or one of `-`, `:`, `T`, `.`. -/
theorem mem_dtBody {c : Char} {d : PyDatetime} (h : c ∈ dtBody d) :
    (48 ≤ c.toNat ∧ c.toNat ≤ 57) ∨ c = '-' ∨ c = ':' ∨ c = 'T' ∨ c = '.' := by
  unfold dtBody at h
  rcases List.mem_append.mp h with h | h
  · rcases List.mem_append.mp h with h | h
    · rcases List.mem_append.mp h with h | h
      · rcases List.mem_append.mp h with h | h
        · rcases List.mem_append.mp h with h | h
          · rcases List.mem_append.mp h with h | h
            · exact Or.inl (mem_padN _ _ _ h)
            · rcases List.mem_cons.mp h with h | h
              · exact Or.inr (Or.inl h)
              · exact Or.inl (mem_padN _ _ _ h)
          · rcases List.mem_cons.mp h with h | h
            · exact Or.inr (Or.inl h)
            · exact Or.inl (mem_padN _ _ _ h)
        · rcases List.mem_cons.mp h with h | h
          · exact Or.inr (Or.inr (Or.inr (Or.inl h)))
          · exact Or.inl (mem_padN _ _ _ h)
      · rcases List.mem_cons.mp h with h | h
        · exact Or.inr (Or.inr (Or.inl h))
        · exact Or.inl (mem_padN _ _ _ h)
    · rcases List.mem_cons.mp h with h | h
      · exact Or.inr (Or.inr (Or.inl h))
      · exact Or.inl (mem_padN _ _ _ h)
  · by_cases hus : d.microsecond = 0
    · rw [if_pos hus] at h
      exact absurd h (List.not_mem_nil c)
    · rw [if_neg hus] at h
      rcases List.mem_cons.mp h with h | h
      · exact Or.inr (Or.inr (Or.inr (Or.inr h)))
      · exact Or.inl (mem_padN _ _ _ h)

/-- `+` does not occur in the isoformat body. -/
theorem plus_not_mem_dtBody (d : PyDatetime) : '+' ∉ dtBody d := by
  intro hc
  rcases mem_dtBody hc with ⟨h1, h2⟩ | h | h | h | h
  · exact absurd h1 (by decide)
  all_goals exact absurd h (by decide)

/-- `Z` does not occur in the isoformat body. -/
theorem z_not_mem_dtBody (d : PyDatetime) : 'Z' ∉ dtBody d := by
  intro hc
  rcases mem_dtBody hc with ⟨h1, h2⟩ | h | h | h | h
  · exact absurd h2 (by decide)
  all_goals exact absurd h (by decide)

/-- No character of the isoformat body is whitespace. -/
theorem dtBody_no_space {c : Char} {d : PyDatetime} (h : c ∈ dtBody d) :
    pyIsSpace c = false := by
  rcases mem_dtBody h with ⟨h1, h2⟩ | h | h | h | h
  · exact pyIsSpace_false_of_digit h1 h2
  all_goals (subst h; decide)

/-- Rendering an aware UTC datetime and replacing the `+00:00` suffix by `Z`. -/
theorem pyIsoformat_zRender {du : PyDatetime} (hoff : du.offsetMinutes = some 0) :
    pyReplace (pyIsoformat du) "+00:00" "Z" = ⟨dtBody du ++ ['Z']⟩ := by
  unfold pyIsoformat
  rw [hoff]
  rw [show isoOffsetSuffix (some 0) = ('+' :: '0' :: '0' :: ':' :: '0' :: '0' :: []) from rfl]
  exact pyReplace_append_needle (dtBody du) "+00:00" "Z" '+' ['0', '0', ':', '0', '0']
    rfl (plus_not_mem_dtBody du)

/-- Parsing back a rendered valid UTC datetime recovers it exactly. -/
theorem pyFromIsoformat_roundtrip {d : PyDatetime} (hv : isValidDatetime d = true)
    (hoff : d.offsetMinutes = some 0) :
    pyFromIsoformat ⟨dtBody d ++ ('+' :: '0' :: '0' :: ':' :: '0' :: '0' :: [])⟩ =
      some d := by
  obtain ⟨y, mo, dd, h, mi, s, us, off⟩ := d
  simp only at hoff
  subst hoff
  simp only [isValidDatetime, decide_eq_true_eq] at hv
  obtain ⟨hy1, hy2, hmo1, hmo2, hdd1, hdd2, hh, hmi, hs, hus⟩ := hv
  have hdm := daysInMonth_le31 y mo
  have hb : dtBody ⟨y, mo, dd, h, mi, s, us, some 0⟩ ++
      ('+' :: '0' :: '0' :: ':' :: '0' :: '0' :: []) =
      padN 4 y ++ ('-' :: (padN 2 mo ++ ('-' :: (padN 2 dd ++ ('T' :: (padN 2 h ++
        (':' :: (padN 2 mi ++ (':' :: (padN 2 s ++
          ((if us = 0 then [] else '.' :: padN 6 us) ++
            ('+' :: '0' :: '0' :: ':' :: '0' :: '0' :: [])))))))))))) := by
    simp only [dtBody, List.append_assoc, List.cons_append]
  rw [hb]
  rw [pyFromIsoformat_pad y _ (by omega)]
  rw [parseMonth_pad y mo _ (by omega)]
  rw [parseDay_pad y mo dd 'T' _ (by omega)]
  rw [parseTime_pad y mo dd h _ (by omega)]
  rw [parseMinute_pad y mo dd h mi _ (by omega)]
  rw [parseSecond_pad y mo dd h mi s _ (by omega)]
  by_cases husz : us = 0
  · subst husz
    rw [show (if (0 : Nat) = 0 then ([] : List Char) else '.' :: padN 6 0) = [] from rfl]
    rw [List.nil_append]
    rw [parseFrac_plus]
    rw [parseOffset_utc]
    exact finishDt_some y mo dd h mi s 0
      (by simp only [isValidDatetime, decide_eq_true_eq]; omega)
  · rw [if_neg husz]
    rw [List.cons_append]
    rw [parseFrac_pad y mo dd h mi s us _ (by omega)]
    rw [parseOffset_utc]
    exact finishDt_some y mo dd h mi s us
      (by simp only [isValidDatetime, decide_eq_true_eq]; omega)

/-- A normalized rendering (isoformat body plus literal `Z`) is a fixed point of
`_parse_iso_timestamp`'s normalization. -/
theorem parse_iso_core_fixpoint {du : PyDatetime} (f' : String)
    (hv : isValidDatetime du = true) (hoff : du.offsetMinutes = some 0) :
    parse_iso_core ⟨dtBody du ++ ['Z']⟩ f' = .ok (some ⟨dtBody du ++ ['Z']⟩) := by
  have hsp : ∀ c ∈ (⟨dtBody du ++ ['Z']⟩ : String).data, pyIsSpace c = false := by
    intro c hc
    rcases List.mem_append.mp hc with hc | hc
    · exact dtBody_no_space hc
    · rcases List.mem_cons.mp hc with hc | hc
      · subst hc
        decide
      · exact absurd hc (List.not_mem_nil c)
  have hne : ¬ (⟨dtBody du ++ ['Z']⟩ : String) = "" := by
    intro hcontra
    have h2 := congrArg String.data hcontra
    simp at h2
  have h5 : pyReplace ⟨dtBody du ++ ['Z']⟩ "Z" "+00:00" =
      ⟨dtBody du ++ ('+' :: '0' :: '0' :: ':' :: '0' :: '0' :: [])⟩ :=
    pyReplace_append_needle (dtBody du) "Z" "+00:00" 'Z' [] rfl (z_not_mem_dtBody du)
  simp only [parse_iso_core]
  rw [pyStrip_eq_self _ hsp]
  rw [if_neg hne]
  rw [h5]
  rw [pyFromIsoformat_roundtrip hv hoff]
  show (match astimezoneUtc du with
        | none => PyOutcome.uncaught
        | some du2 => PyOutcome.ok (some (pyReplace (pyIsoformat du2) "+00:00" "Z"))) =
    PyOutcome.ok (some (⟨dtBody du ++ ['Z']⟩ : String))
  rw [astimezoneUtc_zero hoff]
  show PyOutcome.ok (some (pyReplace (pyIsoformat du) "+00:00" "Z")) =
    PyOutcome.ok (some (⟨dtBody du ++ ['Z']⟩ : String))
  rw [pyIsoformat_zRender hoff]

/-- C7: timestamp normalization in `progress_handler._parse_iso_timestamp` is
idempotent — whenever the normalizer accepts a string and returns a normalized
timestamp, running the normalizer on that output returns it unchanged — and the
input `"2024-07-09T12:45:00+02:00"` normalizes to `"2024-07-09T10:45:00Z"`. -/
theorem claim_c7_normalization_idempotent :
    (∀ (s t f f' : String), parse_iso_core s f = .ok (some t) →
        parse_iso_core t f' = .ok (some t)) ∧
      parse_iso_core "2024-07-09T12:45:00+02:00" "finishedAt" =
        .ok (some "2024-07-09T10:45:00Z") := by
  constructor
  · intro s t f f' H
    simp only [parse_iso_core] at H
    split at H
    · exact absurd H (by simp)
    · split at H
      · exact absurd H (by simp)
      · next d hp =>
        split at H
        · exact absurd H (by simp)
        · next du ha =>
          have hd := pyFromIsoformat_valid hp
          have hduv := astimezoneUtc_valid hd ha
          have hduo := astimezoneUtc_offset ha
          have ht : pyReplace (pyIsoformat du) "+00:00" "Z" = t := by
            injection H with H1
            injection H1
          rw [pyIsoformat_zRender hduo] at ht
          subst ht
          exact parse_iso_core_fixpoint f' hduv hduo
  · decide

/-- Witness: the claim applied to the concrete normalization example. -/
theorem claim_c7_normalization_idempotent_witness :
    parse_iso_core "2024-07-09T10:45:00Z" "finishedAt" =
      PyOutcome.ok (some "2024-07-09T10:45:00Z") :=
  claim_c7_normalization_idempotent.1 "2024-07-09T12:45:00+02:00" "2024-07-09T10:45:00Z"
    "finishedAt" "finishedAt" (by decide)

/-- `find?` ignores a right extension once it has found a hit. -/
theorem find?_append_some {α : Type} (p : α → Bool) (l₁ l₂ : List α) (x : α)
    (h : l₁.find? p = some x) : (l₁ ++ l₂).find? p = some x := by
  induction l₁ with
  | nil => simp [List.find?] at h
  | cons hd tl ih =>
    rw [List.cons_append]
    cases hpa : p hd
    · rw [List.find?_cons_of_neg _ (by simp [hpa])] at h ⊢
      exact ih h
    · rw [List.find?_cons_of_pos _ hpa] at h ⊢
      exact h

/-- Appending a further optional attribute does not change an existing lookup. -/
theorem getAttr_appendOpt {item : Item} {k : String} {a : AttrVal}
    {k' : String} {v : Option AttrVal}
    (h : getAttr item k = some a) : getAttr (appendOpt item k' v) k = some a := by
  unfold appendOpt
  cases v with
  | none => exact h
  | some b =>
    unfold getAttr at h ⊢
    rcases hf : item.find? (fun q => q.1 = k) with _ | pr
    · rw [hf] at h
      simp at h
    · rw [hf] at h
      rw [find?_append_some _ _ _ _ hf]
      exact h

/-- C4: in `_store_progress_entry`, once the required fields validate,
`setsCompleted < totalSets` is rejected with 400; otherwise (when the optional
fields validate and the put succeeds) the request returns 201, the stored
item's `completed_at` is the server clock rendered by `_utc_now_iso`, the same
value is returned as `completedAt`, and that rendering carries a `Z` suffix. -/
theorem claim_c4_server_stamped_completion :
    ∀ (now : PyDatetime) (pr : Bool) (p : ProgressPayload) (cid eid : String) (ts sc : Int),
      expect_string p.clientId "clientId" = .ok cid →
      expect_string p.exerciseId "exerciseId" = .ok eid →
      expect_positive_int p.totalSets "totalSets" = .ok ts →
      expect_positive_int p.setsCompleted "setsCompleted" = .ok sc →
      (sc < ts →
        store_progress_entry now pr p =
          (.http 400 "Die Übung wurde nicht vollständig abgeschlossen", [])) ∧
      (∀ (dm : Option Int) (en : Option String) (rep rest prep : Option Int)
          (sa fa : Option String),
        ts ≤ sc →
        extract_duration p.durationMs = .ok dm →
        normalize_optional_string p.exerciseName "exerciseName" = .ok en →
        optional_positive_int p.repTime "repTime" = .ok rep →
        optional_non_negative_int p.restTime "restTime" = .ok rest →
        optional_non_negative_int p.prepTime "prepTime" = .ok prep →
        parse_iso_timestamp p.startedAt "startedAt" = .ok sa →
        parse_iso_timestamp p.finishedAt "finishedAt" = .ok fa →
        ∃ item,
          store_progress_entry now false p =
            (.ok (json_response 201
              [("status", JVal.str "stored"),
               ("completedAt", JVal.str (utc_now_iso now))]), [item]) ∧
          getAttr item "completed_at" = some (.s (utc_now_iso now))) ∧
      (now.offsetMinutes = some 0 → (utc_now_iso now).data = dtBody now ++ ['Z']) := by
  intro now pr p cid eid ts sc hcid heid hts hsc
  refine ⟨?_, ?_, ?_⟩
  · intro hlt
    have hb : build_progress_item now p =
        .http 400 "Die Übung wurde nicht vollständig abgeschlossen" := by
      unfold build_progress_item
      rw [hcid, pyBind_ok, heid, pyBind_ok, hts, pyBind_ok, hsc, pyBind_ok, if_pos hlt]
    unfold store_progress_entry
    rw [hb]
  · intro dm en rep rest prep sa fa hle hdm hen hrep hrest hprep hsa hfa
    have hb : build_progress_item now p =
        .ok (appendOpt (appendOpt (appendOpt (appendOpt (appendOpt (appendOpt (appendOpt
          [("client_id", .s cid), ("completed_at", .s (utc_now_iso now)),
           ("exercise_id", .s eid), ("total_sets", .n ts), ("sets_completed", .n sc)]
          "exercise_name" (en.map .s)) "duration_ms" (dm.map .n))
          "rep_time_seconds" (rep.map .n)) "rest_time_seconds" (rest.map .n))
          "prep_time_seconds" (prep.map .n)) "started_at" (sa.map .s))
          "finished_at" (fa.map .s)) := by
      unfold build_progress_item
      rw [hcid, pyBind_ok, heid, pyBind_ok, hts, pyBind_ok, hsc, pyBind_ok,
        if_neg (not_lt.mpr hle), hdm, pyBind_ok, hen, pyBind_ok, hrep, pyBind_ok,
        hrest, pyBind_ok, hprep, pyBind_ok, hsa, pyBind_ok, hfa, pyBind_ok]
      rfl
    have hga : getAttr (appendOpt (appendOpt (appendOpt (appendOpt (appendOpt (appendOpt
        (appendOpt
          [("client_id", .s cid), ("completed_at", .s (utc_now_iso now)),
           ("exercise_id", .s eid), ("total_sets", .n ts), ("sets_completed", .n sc)]
          "exercise_name" (en.map .s)) "duration_ms" (dm.map .n))
          "rep_time_seconds" (rep.map .n)) "rest_time_seconds" (rest.map .n))
          "prep_time_seconds" (prep.map .n)) "started_at" (sa.map .s))
          "finished_at" (fa.map .s)) "completed_at" = some (.s (utc_now_iso now)) :=
      getAttr_appendOpt (getAttr_appendOpt (getAttr_appendOpt (getAttr_appendOpt
        (getAttr_appendOpt (getAttr_appendOpt (getAttr_appendOpt rfl))))))
    refine ⟨_, ?_, hga⟩
    have hck : completedKey (appendOpt (appendOpt (appendOpt (appendOpt (appendOpt
        (appendOpt (appendOpt
          [("client_id", .s cid), ("completed_at", .s (utc_now_iso now)),
           ("exercise_id", .s eid), ("total_sets", .n ts), ("sets_completed", .n sc)]
          "exercise_name" (en.map .s)) "duration_ms" (dm.map .n))
          "rep_time_seconds" (rep.map .n)) "rest_time_seconds" (rest.map .n))
          "prep_time_seconds" (prep.map .n)) "started_at" (sa.map .s))
          "finished_at" (fa.map .s)) = utc_now_iso now := by
      unfold completedKey strAttrOrEmpty
      rw [hga]
    simp only [store_progress_entry, hb]
    rw [hck]
    rfl
  · intro hoff
    unfold utc_now_iso
    rw [pyIsoformat_zRender hoff]

/-- Witness: the claim applied to a concrete incomplete and a concrete
completed submission. -/
theorem claim_c4_server_stamped_completion_witness :
    (store_progress_entry ⟨2024, 7, 9, 10, 45, 0, 0, some 0⟩ false
        { clientId := .str "user-1", exerciseId := .str "kieser-training",
          totalSets := .int 2, setsCompleted := .int 1 } =
      (.http 400 "Die Übung wurde nicht vollständig abgeschlossen", [])) ∧
    (∃ item,
      store_progress_entry ⟨2024, 7, 9, 10, 45, 0, 0, some 0⟩ false
          { clientId := .str "user-1", exerciseId := .str "kieser-training",
            totalSets := .int 1, setsCompleted := .int 1 } =
        (.ok (json_response 201
          [("status", JVal.str "stored"),
           ("completedAt", JVal.str (utc_now_iso ⟨2024, 7, 9, 10, 45, 0, 0, some 0⟩))]),
         [item]) ∧
      getAttr item "completed_at" =
        some (.s (utc_now_iso ⟨2024, 7, 9, 10, 45, 0, 0, some 0⟩))) :=
  ⟨(claim_c4_server_stamped_completion ⟨2024, 7, 9, 10, 45, 0, 0, some 0⟩ false
      { clientId := .str "user-1", exerciseId := .str "kieser-training",
        totalSets := .int 2, setsCompleted := .int 1 } "user-1" "kieser-training" 2 1
      rfl rfl rfl rfl).1 (by decide),
   (claim_c4_server_stamped_completion ⟨2024, 7, 9, 10, 45, 0, 0, some 0⟩ false
      { clientId := .str "user-1", exerciseId := .str "kieser-training",
        totalSets := .int 1, setsCompleted := .int 1 } "user-1" "kieser-training" 1 1
      rfl rfl rfl rfl).2.1 none none none none none none none (by decide)
      rfl rfl rfl rfl rfl rfl rfl⟩
